import Mathlib

/-!
# A shallow embedding of the Cursor-Emulator Game Boy Color core

This file embeds, in Lean 4, the parts of the emulator's Python source that
the verification claims are about:

* `src/memory.py` — the MBC bank controllers, the `Memory` MMU (address
  dispatch, joypad, OAM DMA, HDMA, timer);
* `src/cpu.py` — the LR35902 `CPU` (register file, flags, the full main and
  CB-prefixed opcode tables, interrupt dispatch, `step`);
* `src/ppu.py` — the `PPU` mode state machine (`step`, `_advance_mode`,
  `_update_stat`, `_check_lyc`), with the two pure rasterizer helpers
  (`_scan_oam`, `_render_scanline`) kept as parameters since none of the
  claims depend on their pixel output.

Machine integers are modelled as `Nat` with explicit wrapping.  Python's
`x & 0xFF` / `x & 0xFFFF` on non-negative ints is `x % 0x100` / `x % 0x10000`;
`x & ~mask` on a non-negative int is `pyAndNot x mask`; sites where the Python
value may be negative (signed displacements, subtraction) go through `Int`
with `Int.emod`, which agrees with Python's `%` and `&` on negatives.
numpy `uint8` array stores are modelled as `Nat → Nat` maps holding bytes.
Python exceptions escaping `CPU.step` are modelled by `Except PyExn`.
-/

set_option maxHeartbeats 1000000

namespace GBC

/-- Python `x & ~mask` for non-negative `x`: clears in `x` every bit set in
`mask` (`x = (x &&& mask) + (x &&& ~mask)` since the two parts are disjoint). -/
def pyAndNot (x mask : Nat) : Nat := x - (x &&& mask)

/-- Python `x & 0xFF` where `x : Int` may be negative (`Int.emod` matches
Python's nonnegative remainder). -/
def wrap8i (x : Int) : Nat := (x % 256).toNat

/-- Python `x & 0xFFFF` where `x : Int` may be negative. -/
def wrap16i (x : Int) : Nat := (x % 65536).toNat

/-- Functional update of a 1-dimensional numpy byte array `a[i] = v`. -/
def upd1 (a : Nat → Nat) (i v : Nat) : Nat → Nat :=
  fun j => if j = i then v else a j

/-- Functional update of a 2-dimensional numpy byte array `a[i][j] = v`. -/
def upd2 (a : Nat → Nat → Nat) (i j v : Nat) : Nat → Nat → Nat :=
  fun i2 j2 => if i2 = i ∧ j2 = j then v else a i2 j2

/-! ## Memory bank controllers (`memory.py`, classes `MBC`, `MBC_None`,
`MBC1`, `MBC2`, `MBC3`, `MBC5`) -/

/-- The fields of the base `MBC` class: the ROM image (a byte map plus its
length), the effective bank registers, and the external RAM. -/
structure MBCCommon where
  rom : Nat → Nat
  romLen : Nat
  romBank : Nat
  ramBank : Nat
  ramEnabled : Bool
  ram : Nat → Nat
  ramLen : Nat

/-- The per-variant extra state of each `MBC` subclass. -/
inductive MBCVar where
  | noMbc
  | mbc1 (mode romBankLow romBankHigh : Nat)
  | mbc2
  | mbc3 (rtcRegisters rtcLatched : Nat → Nat) (rtcLatchState ramRtcSelect : Nat)
  | mbc5 (romBankLow romBankHigh : Nat)

/-- A memory bank controller: base-class state plus variant state. -/
structure MBC where
  com : MBCCommon
  var : MBCVar

/-- `MBC.read_rom` (shared by every variant; none overrides it). -/
def MBC.readRom (m : MBC) (addr : Nat) : Nat :=
  if addr < 0x4000 then m.com.rom addr
  else
    let bankAddr := m.com.romBank * 0x4000 + (addr - 0x4000)
    if bankAddr < m.com.romLen then m.com.rom bankAddr else 0xFF

/-- `MBC.read_ram` of the base class. -/
def MBC.readRamBase (m : MBC) (addr : Nat) : Nat :=
  if m.com.ramEnabled ∧ 0 < m.com.ramLen then
    let ramAddr := m.com.ramBank * 0x2000 + (addr - 0xA000)
    if ramAddr < m.com.ramLen then m.com.ram ramAddr else 0xFF
  else 0xFF

/-- `read_ram`, with the `MBC2` and `MBC3` overrides. -/
def MBC.readRam (m : MBC) (addr : Nat) : Nat :=
  match m.var with
  | .mbc2 =>
      if m.com.ramEnabled then m.com.ram ((addr - 0xA000) &&& 0x1FF) ||| 0xF0
      else 0xFF
  | .mbc3 _ rtcLatched _ ramRtcSelect =>
      if ¬ m.com.ramEnabled then 0xFF
      else if 0x08 ≤ ramRtcSelect ∧ ramRtcSelect ≤ 0x0C then
        rtcLatched (ramRtcSelect - 0x08)
      else m.readRamBase addr
  | _ => m.readRamBase addr

/-- `MBC.write_ram` of the base class. -/
def MBC.writeRamBase (m : MBC) (addr value : Nat) : MBC :=
  if m.com.ramEnabled ∧ 0 < m.com.ramLen then
    let ramAddr := m.com.ramBank * 0x2000 + (addr - 0xA000)
    if ramAddr < m.com.ramLen then
      { m with com := { m.com with ram := upd1 m.com.ram ramAddr value } }
    else m
  else m

/-- `write_ram`, with the `MBC2` and `MBC3` overrides. -/
def MBC.writeRam (m : MBC) (addr value : Nat) : MBC :=
  match m.var with
  | .mbc2 =>
      if m.com.ramEnabled then
        { m with com := { m.com with
            ram := upd1 m.com.ram ((addr - 0xA000) &&& 0x1FF) (value &&& 0x0F) } }
      else m
  | .mbc3 rtc lat ls sel =>
      if ¬ m.com.ramEnabled then m
      else if 0x08 ≤ sel ∧ sel ≤ 0x0C then
        { m with var := .mbc3 (upd1 rtc (sel - 0x08) value) lat ls sel }
      else m.writeRamBase addr value
  | _ => m.writeRamBase addr value

/-- `MBC1._update_banks`. -/
def MBC.mbc1UpdateBanks (m : MBC) : MBC :=
  match m.var with
  | .mbc1 mode low high =>
      if mode = 0 then
        { m with com := { m.com with romBank := (high <<< 5) ||| low, ramBank := 0 } }
      else
        { m with com := { m.com with romBank := low, ramBank := high } }
  | _ => m

/-- `write_rom` for every variant (the base class ignores ROM-area writes). -/
def MBC.writeRom (m : MBC) (addr value : Nat) : MBC :=
  match m.var with
  | .noMbc => m
  | .mbc1 mode low high =>
      if addr < 0x2000 then
        { m with com := { m.com with ramEnabled := value &&& 0x0F == 0x0A } }
      else if addr < 0x4000 then
        let low2 := value &&& 0x1F
        let low2 := if low2 = 0 then 1 else low2
        MBC.mbc1UpdateBanks { m with var := .mbc1 mode low2 high }
      else if addr < 0x6000 then
        MBC.mbc1UpdateBanks { m with var := .mbc1 mode low (value &&& 0x03) }
      else
        MBC.mbc1UpdateBanks { m with var := .mbc1 (value &&& 0x01) low high }
  | .mbc2 =>
      if addr < 0x4000 then
        if addr &&& 0x0100 ≠ 0 then
          let bank := value &&& 0x0F
          let bank := if bank = 0 then 1 else bank
          { m with com := { m.com with romBank := bank } }
        else
          { m with com := { m.com with ramEnabled := value &&& 0x0F == 0x0A } }
      else m
  | .mbc3 rtc lat ls sel =>
      if addr < 0x2000 then
        { m with com := { m.com with ramEnabled := value &&& 0x0F == 0x0A } }
      else if addr < 0x4000 then
        let bank := value &&& 0x7F
        let bank := if bank = 0 then 1 else bank
        { m with com := { m.com with romBank := bank } }
      else if addr < 0x6000 then
        if value ≤ 0x03 then
          { m with com := { m.com with ramBank := value },
                   var := .mbc3 rtc lat ls value }
        else { m with var := .mbc3 rtc lat ls value }
      else
        if ls = 0 ∧ value = 0x00 then { m with var := .mbc3 rtc lat 1 sel }
        else if ls = 1 ∧ value = 0x01 then { m with var := .mbc3 rtc rtc 0 sel }
        else m
  | .mbc5 low high =>
      if addr < 0x2000 then
        { m with com := { m.com with ramEnabled := value &&& 0x0F == 0x0A } }
      else if addr < 0x3000 then
        { m with com := { m.com with romBank := (high <<< 8) ||| value },
                 var := .mbc5 value high }
      else if addr < 0x4000 then
        let high2 := value &&& 0x01
        { m with com := { m.com with romBank := (high2 <<< 8) ||| low },
                 var := .mbc5 low high2 }
      else if addr < 0x6000 then
        { m with com := { m.com with ramBank := value &&& 0x0F } }
      else m

/-- The state constructed by `MBC1.__init__` (base init, then
`mode = 0`, `rom_bank_low = 1`, `rom_bank_high = 0`). -/
def mbc1Init (rom : Nat → Nat) (romLen ramLen : Nat) : MBC :=
  { com := { rom := rom, romLen := romLen, romBank := 1, ramBank := 0,
             ramEnabled := false, ram := fun _ => 0, ramLen := ramLen },
    var := .mbc1 0 1 0 }

/-! ## The MMU (`memory.py`, class `Memory`)

The numpy backing arrays become byte maps; the two VRAM banks and eight WRAM
banks keep their two-level indexing.  The `on_vram_write` / `on_oam_write`
callbacks are `None` in the emulator configurations the claims are about and
are omitted. -/

structure Mem where
  vram : Nat → Nat → Nat
  vramBank : Nat
  wram : Nat → Nat → Nat
  wramBank : Nat
  oam : Nat → Nat
  hram : Nat → Nat
  ioRegs : Nat → Nat
  ie : Nat
  mbc : Option MBC
  cgbMode : Bool
  bgPaletteRam : Nat → Nat
  objPaletteRam : Nat → Nat
  bgPaletteIndex : Nat
  objPaletteIndex : Nat
  bgPaletteAutoInc : Bool
  objPaletteAutoInc : Bool
  dmaSource : Nat
  dmaDest : Nat
  dmaLength : Nat
  hdmaActive : Bool
  hdmaMode : Nat
  joypadSelect : Nat
  joypadState : Nat
  divCounter : Nat
  timaCounter : Nat

/-- The state built by `Memory.__init__` (all arrays zeroed, no MBC loaded;
`_init_io` runs only on `load_rom` and is not part of `__init__`). -/
def Mem.init : Mem :=
  { vram := fun _ _ => 0, vramBank := 0,
    wram := fun _ _ => 0, wramBank := 1,
    oam := fun _ => 0, hram := fun _ => 0, ioRegs := fun _ => 0, ie := 0,
    mbc := none, cgbMode := false,
    bgPaletteRam := fun _ => 0, objPaletteRam := fun _ => 0,
    bgPaletteIndex := 0, objPaletteIndex := 0,
    bgPaletteAutoInc := false, objPaletteAutoInc := false,
    dmaSource := 0, dmaDest := 0, dmaLength := 0,
    hdmaActive := false, hdmaMode := 0,
    joypadSelect := 0x30, joypadState := 0xFF,
    divCounter := 0, timaCounter := 0 }

/-- `Memory._read_joypad`, as a pure function of the two joypad fields. -/
def joypadValue (select state : Nat) : Nat :=
  let result := select ||| 0x0F
  let result := if select &&& 0x10 = 0 then result &&& ((state >>> 4) ||| 0xF0) else result
  let result := if select &&& 0x20 = 0 then result &&& ((state &&& 0x0F) ||| 0xF0) else result
  result

/-- `Memory._read_joypad`. -/
def Mem.readJoypad (m : Mem) : Nat :=
  joypadValue m.joypadSelect m.joypadState

/-- `Memory._read_io`. -/
def Mem.readIoReg (m : Mem) (addr : Nat) : Nat :=
  let reg := addr &&& 0x7F
  if reg = 0x00 then m.readJoypad
  else if reg = 0x69 then m.bgPaletteRam m.bgPaletteIndex
  else if reg = 0x6B then m.objPaletteRam m.objPaletteIndex
  else m.ioRegs reg

/-- `Memory.read`.  The echo-RAM case of the source recurses into
`read (addr - 0x2000)`; that target always lies in `0xC000..0xDDFF`, so the
recursive call resolves to the two WRAM cases, which are inlined here. -/
def Mem.read (m : Mem) (addr0 : Nat) : Nat :=
  let addr := addr0 % 0x10000
  if addr < 0x8000 then
    match m.mbc with
    | some mbc => mbc.readRom addr
    | none => 0xFF
  else if addr < 0xA000 then m.vram m.vramBank (addr - 0x8000)
  else if addr < 0xC000 then
    match m.mbc with
    | some mbc => mbc.readRam addr
    | none => 0xFF
  else if addr < 0xD000 then m.wram 0 (addr - 0xC000)
  else if addr < 0xE000 then m.wram m.wramBank (addr - 0xD000)
  else if addr < 0xFE00 then
    if addr - 0x2000 < 0xD000 then m.wram 0 (addr - 0x2000 - 0xC000)
    else m.wram m.wramBank (addr - 0x2000 - 0xD000)
  else if addr < 0xFEA0 then m.oam (addr - 0xFE00)
  else if addr < 0xFF00 then 0xFF
  else if addr < 0xFF80 then m.readIoReg addr
  else if addr < 0xFFFF then m.hram (addr - 0xFF80)
  else m.ie

/-- The loop body of `Memory._do_oam_dma`: `oam[i] = read(source + i)` for
`i` in `range(0xA0)`, threading the memory state through each step. -/
def Mem.oamDmaLoop (m : Mem) (source i count : Nat) : Mem :=
  match count with
  | 0 => m
  | n + 1 =>
      Mem.oamDmaLoop { m with oam := upd1 m.oam i (m.read (source + i)) } source (i + 1) n

/-- `Memory._do_oam_dma`. -/
def Mem.doOamDma (m : Mem) (value : Nat) : Mem :=
  let m2 := m.oamDmaLoop (value <<< 8) 0 0xA0
  { m2 with ioRegs := upd1 m2.ioRegs 0x46 value }

/-- The loop of the general-DMA branch of `Memory._start_hdma`:
`vram[vram_bank][(dest + i) & 0x1FFF] = read(source + i)`. -/
def Mem.gdmaLoop (m : Mem) (dest source i count : Nat) : Mem :=
  match count with
  | 0 => m
  | n + 1 =>
      Mem.gdmaLoop
        { m with vram := upd2 m.vram m.vramBank ((dest + i) &&& 0x1FFF) (m.read (source + i)) }
        dest source (i + 1) n

/-- `Memory._start_hdma`. -/
def Mem.startHdma (m : Mem) (value : Nat) : Mem :=
  if m.hdmaActive ∧ value &&& 0x80 = 0 then
    { m with hdmaActive := false, ioRegs := upd1 m.ioRegs 0x55 (value ||| 0x80) }
  else
    let source := ((m.ioRegs 0x51 <<< 8) ||| m.ioRegs 0x52) &&& 0xFFF0
    let dest := ((m.ioRegs 0x53 <<< 8) ||| m.ioRegs 0x54) &&& 0x1FF0
    let length := ((value &&& 0x7F) + 1) * 16
    if value &&& 0x80 ≠ 0 then
      { m with hdmaActive := true, hdmaMode := 1, dmaSource := source,
               dmaDest := dest, dmaLength := length,
               ioRegs := upd1 m.ioRegs 0x55 (value &&& 0x7F) }
    else
      let m2 := m.gdmaLoop dest source 0 length
      { m2 with ioRegs := upd1 m2.ioRegs 0x55 0xFF }

/-- The 16-byte block copy of `Memory.do_hdma_transfer`. -/
def Mem.hdmaBlockLoop (m : Mem) (i count : Nat) : Mem :=
  match count with
  | 0 => m
  | n + 1 =>
      Mem.hdmaBlockLoop
        { m with vram := upd2 m.vram m.vramBank ((m.dmaDest + i) &&& 0x1FFF)
                   (m.read (m.dmaSource + i)) }
        (i + 1) n

/-- `Memory.do_hdma_transfer`.  `dma_length` is a positive multiple of 16
whenever the transfer is active, so the Python `dma_length -= 16; if
dma_length <= 0` test is the `Nat` test `dma_length ≤ 16` before the
(truncated) subtraction, and `(dma_length // 16) - 1` in the live branch is
over a value that is at least 16. -/
def Mem.doHdmaTransfer (m : Mem) : Mem :=
  if ¬ m.hdmaActive then m
  else
    let m2 := m.hdmaBlockLoop 0 16
    let newLen := m2.dmaLength - 16
    let m3 := { m2 with dmaSource := m2.dmaSource + 16, dmaDest := m2.dmaDest + 16,
                        dmaLength := newLen }
    if m2.dmaLength ≤ 16 then
      { m3 with hdmaActive := false, ioRegs := upd1 m3.ioRegs 0x55 0xFF }
    else
      { m3 with ioRegs := upd1 m3.ioRegs 0x55 ((newLen / 16 - 1) &&& 0x7F) }

/-- `Memory._write_io` (the incoming `value` has already been masked to a
byte by `Memory.write`). -/
def Mem.writeIoReg (m : Mem) (addr value : Nat) : Mem :=
  let reg := addr &&& 0x7F
  if reg = 0x00 then { m with joypadSelect := value &&& 0x30 }
  else if reg = 0x04 then
    { m with ioRegs := upd1 m.ioRegs 0x04 0, divCounter := 0 }
  else if reg = 0x46 then m.doOamDma value
  else if reg = 0x4F ∧ m.cgbMode then
    { m with vramBank := value &&& 0x01, ioRegs := upd1 m.ioRegs 0x4F (value ||| 0xFE) }
  else if reg = 0x70 ∧ m.cgbMode then
    let wb := value &&& 0x07
    let wb := if wb = 0 then 1 else wb
    { m with wramBank := wb, ioRegs := upd1 m.ioRegs 0x70 (value ||| 0xF8) }
  else if reg = 0x68 then
    { m with bgPaletteIndex := value &&& 0x3F, bgPaletteAutoInc := value &&& 0x80 != 0,
             ioRegs := upd1 m.ioRegs 0x68 (value ||| 0x40) }
  else if reg = 0x6A then
    { m with objPaletteIndex := value &&& 0x3F, objPaletteAutoInc := value &&& 0x80 != 0,
             ioRegs := upd1 m.ioRegs 0x6A (value ||| 0x40) }
  else if reg = 0x69 then
    { m with bgPaletteRam := upd1 m.bgPaletteRam m.bgPaletteIndex value,
             bgPaletteIndex :=
               if m.bgPaletteAutoInc then (m.bgPaletteIndex + 1) &&& 0x3F
               else m.bgPaletteIndex }
  else if reg = 0x6B then
    { m with objPaletteRam := upd1 m.objPaletteRam m.objPaletteIndex value,
             objPaletteIndex :=
               if m.objPaletteAutoInc then (m.objPaletteIndex + 1) &&& 0x3F
               else m.objPaletteIndex }
  else if reg = 0x55 ∧ m.cgbMode then m.startHdma value
  else { m with ioRegs := upd1 m.ioRegs reg value }

/-- `Memory.write`.  As in `read`, the echo-RAM case inlines the recursion
`write (addr - 0x2000, value)`, whose target is always in WRAM. -/
def Mem.write (m : Mem) (addr0 value0 : Nat) : Mem :=
  let addr := addr0 % 0x10000
  let value := value0 % 0x100
  if addr < 0x8000 then
    match m.mbc with
    | some mbc => { m with mbc := some (mbc.writeRom addr value) }
    | none => m
  else if addr < 0xA000 then
    { m with vram := upd2 m.vram m.vramBank (addr - 0x8000) value }
  else if addr < 0xC000 then
    match m.mbc with
    | some mbc => { m with mbc := some (mbc.writeRam addr value) }
    | none => m
  else if addr < 0xD000 then
    { m with wram := upd2 m.wram 0 (addr - 0xC000) value }
  else if addr < 0xE000 then
    { m with wram := upd2 m.wram m.wramBank (addr - 0xD000) value }
  else if addr < 0xFE00 then
    if addr - 0x2000 < 0xD000 then
      { m with wram := upd2 m.wram 0 (addr - 0x2000 - 0xC000) value }
    else
      { m with wram := upd2 m.wram m.wramBank (addr - 0x2000 - 0xD000) value }
  else if addr < 0xFEA0 then
    { m with oam := upd1 m.oam (addr - 0xFE00) value }
  else if addr < 0xFF00 then m
  else if addr < 0xFF80 then m.writeIoReg addr value
  else if addr < 0xFFFF then
    { m with hram := upd1 m.hram (addr - 0xFF80) value }
  else { m with ie := value }

/-- `Memory.set_button`. -/
def Mem.setButton (m : Mem) (button : Nat) (pressed : Bool) : Mem :=
  if pressed then { m with joypadState := pyAndNot m.joypadState (1 <<< button) }
  else { m with joypadState := m.joypadState ||| (1 <<< button) }

/-! ### The timer (`Memory.update_timer`) -/

/-- The DIV loop: `while div_counter >= 256: div_counter -= 256; io[4] += 1`.
Returns the final `(div_counter, io[0x04])`.  The structural `fuel` argument
bounds the iteration count; every iteration removes 256 from the counter, so
the initial counter itself is always enough fuel and the fuel-exhausted arm
is unreachable. -/
def divLoopGo (fuel counter io4 : Nat) : Nat × Nat :=
  match fuel with
  | 0 => (counter, io4)
  | fuel + 1 =>
      if 256 ≤ counter then divLoopGo fuel (counter - 256) ((io4 + 1) % 256)
      else (counter, io4)

def divLoop (counter io4 : Nat) : Nat × Nat :=
  divLoopGo counter counter io4

/-- One TIMA increment: `tima = (io[5] + 1) & 0xFF; io[5] = tima;
if tima == 0: io[5] = io[6]; io[0xF] |= 0x04`.  Returns the new
`(io[0x05], io[0x0F])`. -/
def timaStep (tima tma ifr : Nat) : Nat × Nat :=
  let t := (tima + 1) % 256
  if t = 0 then (tma, ifr ||| 0x04) else (t, ifr)

/-- The TIMA loop: `while tima_counter >= divider`, one `timaStep` per
iteration.  The source's divider is one of 1024, 16, 64, 256, so every
iteration removes at least 16 and the initial counter bounds the iteration
count, making the fuel-exhausted arm unreachable.  Returns the final
`(tima_counter, io[0x05], io[0x0F])`. -/
def timaLoopGo (divider fuel counter tima tma ifr : Nat) : Nat × Nat × Nat :=
  match fuel with
  | 0 => (counter, tima, ifr)
  | fuel + 1 =>
      if divider ≤ counter then
        let s := timaStep tima tma ifr
        timaLoopGo divider fuel (counter - divider) s.1 tma s.2
      else (counter, tima, ifr)

def timaLoop (divider counter tima tma ifr : Nat) : Nat × Nat × Nat :=
  timaLoopGo divider counter counter tima tma ifr

/-- The `freq_dividers` table `[1024, 16, 64, 256]` indexed by `tac & 0x03`. -/
def freqDivider (sel : Nat) : Nat :=
  if sel = 0 then 1024 else if sel = 1 then 16 else if sel = 2 then 64 else 256

/-- `Memory.update_timer`. -/
def Mem.updateTimer (m : Mem) (cycles : Nat) : Mem :=
  let d := divLoop (m.divCounter + cycles) (m.ioRegs 0x04)
  let m := { m with divCounter := d.1, ioRegs := upd1 m.ioRegs 0x04 d.2 }
  let tac := m.ioRegs 0x07
  if tac &&& 0x04 ≠ 0 then
    let divider := freqDivider (tac &&& 0x03)
    let t := timaLoop divider (m.timaCounter + cycles) (m.ioRegs 0x05) (m.ioRegs 0x06)
               (m.ioRegs 0x0F)
    { m with timaCounter := t.1,
             ioRegs := upd1 (upd1 m.ioRegs 0x05 t.2.1) 0x0F t.2.2 }
  else m

/-! ## The CPU (`cpu.py`, class `CPU`)

The CPU registers and control latches become `CPUState`; a `Machine` couples
them with the MMU the CPU reads and writes through.  Python exceptions that
escape `CPU.step` (the `RuntimeError` for an unknown opcode, and the
`TypeError` raised by the miswired CB `SET b, r` table entries) become
`Except.error`. -/

inductive PyExn where
  | runtimeError
  | typeError
deriving DecidableEq

structure CPUState where
  a : Nat
  f : Nat
  b : Nat
  c : Nat
  d : Nat
  e : Nat
  h : Nat
  l : Nat
  sp : Nat
  pc : Nat
  halted : Bool
  stopped : Bool
  ime : Bool
  imeScheduled : Bool
  cycles : Nat
  totalCycles : Nat
  doubleSpeed : Bool

/-- The register state built by `CPU.__init__` (post-boot DMG values). -/
def cpuInit : CPUState :=
  { a := 0x01, f := 0xB0, b := 0x00, c := 0x13, d := 0x00, e := 0xD8,
    h := 0x01, l := 0x4D, sp := 0xFFFE, pc := 0x0100,
    halted := false, stopped := false, ime := false, imeScheduled := false,
    cycles := 0, totalCycles := 0, doubleSpeed := false }

structure Machine where
  cpu : CPUState
  mem : Mem

/-- `CPU.set_flag`: set or clear one flag bit, then force the low nibble of
F to zero. -/
def setFlag (f flag : Nat) (p : Prop) [Decidable p] : Nat :=
  (if p then f ||| flag else pyAndNot f flag) &&& 0xF0

/-- `CPU.get_flag`. -/
def getFlag (f flag : Nat) : Bool :=
  f &&& flag != 0

/-- Python's signed reinterpretation of a byte (`fetch_signed_byte`). -/
def signedByte (x : Nat) : Int :=
  if x > 127 then (x : Int) - 256 else (x : Int)

/-- The 8-bit registers named by the opcode tables (index 6, `(hl)`, is
dispatched separately, as in the source). -/
inductive R8 where
  | A | B | C | D | E | H | L
deriving DecidableEq

/-- The `regs` index decode used when building the tables:
`['b','c','d','e','h','l','(hl)','a']` (6 = `(hl)` handled by the caller). -/
def decodeR8 (i : Nat) : R8 :=
  if i = 0 then .B else if i = 1 then .C else if i = 2 then .D
  else if i = 3 then .E else if i = 4 then .H else if i = 5 then .L else .A

inductive R16 where
  | BC | DE | HL
deriving DecidableEq

namespace Machine

/-- `CPU._get_r8`. -/
def getR8 (m : Machine) : R8 → Nat
  | .A => m.cpu.a
  | .B => m.cpu.b
  | .C => m.cpu.c
  | .D => m.cpu.d
  | .E => m.cpu.e
  | .H => m.cpu.h
  | .L => m.cpu.l

/-- `CPU._set_r8` (the register setter): `setattr(self, reg, value & 0xFF)`. -/
def setR8 (m : Machine) (r : R8) (v : Nat) : Machine :=
  match r with
  | .A => { m with cpu := { m.cpu with a := v % 0x100 } }
  | .B => { m with cpu := { m.cpu with b := v % 0x100 } }
  | .C => { m with cpu := { m.cpu with c := v % 0x100 } }
  | .D => { m with cpu := { m.cpu with d := v % 0x100 } }
  | .E => { m with cpu := { m.cpu with e := v % 0x100 } }
  | .H => { m with cpu := { m.cpu with h := v % 0x100 } }
  | .L => { m with cpu := { m.cpu with l := v % 0x100 } }

/-- The `bc`/`de`/`hl` register-pair properties (read). -/
def getR16 (m : Machine) : R16 → Nat
  | .BC => (m.cpu.b <<< 8) ||| m.cpu.c
  | .DE => (m.cpu.d <<< 8) ||| m.cpu.e
  | .HL => (m.cpu.h <<< 8) ||| m.cpu.l

/-- `CPU._set_r16`: mask to 16 bits, then the pair property setter splits
into two masked bytes. -/
def setR16 (m : Machine) (r : R16) (v : Nat) : Machine :=
  let v := v % 0x10000
  match r with
  | .BC => { m with cpu := { m.cpu with b := (v >>> 8) % 0x100, c := v % 0x100 } }
  | .DE => { m with cpu := { m.cpu with d := (v >>> 8) % 0x100, e := v % 0x100 } }
  | .HL => { m with cpu := { m.cpu with h := (v >>> 8) % 0x100, l := v % 0x100 } }

/-- The `hl` property (read). -/
def hl (m : Machine) : Nat := (m.cpu.h <<< 8) ||| m.cpu.l

/-- The `hl` property (write). -/
def setHl (m : Machine) (v : Nat) : Machine :=
  { m with cpu := { m.cpu with h := (v >>> 8) % 0x100, l := v % 0x100 } }

/-- Set `self.cycles` (each handler's final cycle commit). -/
def withC (n : Nat) (m : Machine) : Machine :=
  { m with cpu := { m.cpu with cycles := n } }

/-- `CPU.read_byte`. -/
def readByte (m : Machine) (addr : Nat) : Nat := m.mem.read addr

/-- `CPU.write_byte` (`memory.write(addr, value & 0xFF)`). -/
def writeByte (m : Machine) (addr value : Nat) : Machine :=
  { m with mem := m.mem.write addr (value % 0x100) }

/-- `CPU.read_word`. -/
def readWord (m : Machine) (addr : Nat) : Nat :=
  let lo := m.readByte addr
  let hi := m.readByte ((addr + 1) % 0x10000)
  (hi <<< 8) ||| lo

/-- `CPU.write_word`. -/
def writeWord (m : Machine) (addr value : Nat) : Machine :=
  (m.writeByte addr (value % 0x100)).writeByte ((addr + 1) % 0x10000) ((value >>> 8) % 0x100)

/-- `CPU.fetch_byte`: read at PC, then advance PC. -/
def fetchByte (m : Machine) : Nat × Machine :=
  (m.readByte m.cpu.pc,
   { m with cpu := { m.cpu with pc := (m.cpu.pc + 1) % 0x10000 } })

/-- `CPU.fetch_word` (little endian). -/
def fetchWord (m : Machine) : Nat × Machine :=
  let lo := m.fetchByte
  let hi := lo.2.fetchByte
  ((hi.1 <<< 8) ||| lo.1, hi.2)

/-- `CPU.push_word`: pre-decrement SP by 2 (wrapping), then write the word. -/
def pushWord (m : Machine) (value : Nat) : Machine :=
  let sp2 := wrap16i ((m.cpu.sp : Int) - 2)
  writeWord { m with cpu := { m.cpu with sp := sp2 } } sp2 value

/-- `CPU.pop_word`. -/
def popWord (m : Machine) : Nat × Machine :=
  (m.readWord m.cpu.sp,
   { m with cpu := { m.cpu with sp := (m.cpu.sp + 2) % 0x10000 } })

end Machine

/-! ### Instruction handlers (`cpu.py`, `_nop` through `_ei`).
Flag updates are chained through `setFlag` in the statement order of the
source, so every flag write re-masks the low nibble of F to zero. -/

namespace Insn

open Machine

def nop (m : Machine) : Machine := withC 4 m

def halt (m : Machine) : Machine :=
  withC 4 { m with cpu := { m.cpu with halted := true } }

def stop (m : Machine) : Machine :=
  let fb := m.fetchByte
  let m := fb.2
  let key1 := m.readByte 0xFF4D
  let m :=
    if key1 &&& 0x01 ≠ 0 then
      let ds := ! m.cpu.doubleSpeed
      writeByte { m with cpu := { m.cpu with doubleSpeed := ds } } 0xFF4D
        (if ds then 0x80 else 0x00)
    else { m with cpu := { m.cpu with stopped := true } }
  withC 4 m

def ld_r16_nn (r : R16) (m : Machine) : Machine :=
  let fw := m.fetchWord
  withC 12 (fw.2.setR16 r fw.1)

def ld_sp_nn (m : Machine) : Machine :=
  let fw := m.fetchWord
  withC 12 { fw.2 with cpu := { fw.2.cpu with sp := fw.1 } }

def ld_nn_sp (m : Machine) : Machine :=
  let fw := m.fetchWord
  withC 20 (fw.2.writeWord fw.1 fw.2.cpu.sp)

def ld_sp_hl (m : Machine) : Machine :=
  withC 8 { m with cpu := { m.cpu with sp := m.hl } }

def ld_r8_n (r : R8) (m : Machine) : Machine :=
  let fb := m.fetchByte
  withC 8 (fb.2.setR8 r fb.1)

def ld_hl_n (m : Machine) : Machine :=
  let fb := m.fetchByte
  withC 12 (fb.2.writeByte fb.2.hl fb.1)

def ld_r8_r8 (dst src : R8) (m : Machine) : Machine :=
  withC 4 (m.setR8 dst (m.getR8 src))

def ld_r8_hl (dst : R8) (m : Machine) : Machine :=
  withC 8 (m.setR8 dst (m.readByte m.hl))

def ld_hl_r8 (src : R8) (m : Machine) : Machine :=
  withC 8 (m.writeByte m.hl (m.getR8 src))

def ld_r16_a (r : R16) (m : Machine) : Machine :=
  withC 8 (m.writeByte (m.getR16 r) m.cpu.a)

def ld_a_r16 (r : R16) (m : Machine) : Machine :=
  withC 8 { m with cpu := { m.cpu with a := m.readByte (m.getR16 r) } }

def ld_hli_a (m : Machine) : Machine :=
  let m := m.writeByte m.hl m.cpu.a
  withC 8 (m.setHl ((m.hl + 1) % 0x10000))

def ld_hld_a (m : Machine) : Machine :=
  let m := m.writeByte m.hl m.cpu.a
  withC 8 (m.setHl (wrap16i ((m.hl : Int) - 1)))

def ld_a_hli (m : Machine) : Machine :=
  let m := { m with cpu := { m.cpu with a := m.readByte m.hl } }
  withC 8 (m.setHl ((m.hl + 1) % 0x10000))

def ld_a_hld (m : Machine) : Machine :=
  let m := { m with cpu := { m.cpu with a := m.readByte m.hl } }
  withC 8 (m.setHl (wrap16i ((m.hl : Int) - 1)))

def ldh_n_a (m : Machine) : Machine :=
  let fb := m.fetchByte
  withC 12 (fb.2.writeByte (0xFF00 + fb.1) fb.2.cpu.a)

def ldh_a_n (m : Machine) : Machine :=
  let fb := m.fetchByte
  withC 12 { fb.2 with cpu := { fb.2.cpu with a := fb.2.readByte (0xFF00 + fb.1) } }

def ldh_c_a (m : Machine) : Machine :=
  withC 8 (m.writeByte (0xFF00 + m.cpu.c) m.cpu.a)

def ldh_a_c (m : Machine) : Machine :=
  withC 8 { m with cpu := { m.cpu with a := m.readByte (0xFF00 + m.cpu.c) } }

def ld_nn_a (m : Machine) : Machine :=
  let fw := m.fetchWord
  withC 16 (fw.2.writeByte fw.1 fw.2.cpu.a)

def ld_a_nn (m : Machine) : Machine :=
  let fw := m.fetchWord
  withC 16 { fw.2 with cpu := { fw.2.cpu with a := fw.2.readByte fw.1 } }

def inc_r16 (r : R16) (m : Machine) : Machine :=
  withC 8 (m.setR16 r ((m.getR16 r + 1) % 0x10000))

def inc_sp (m : Machine) : Machine :=
  withC 8 { m with cpu := { m.cpu with sp := (m.cpu.sp + 1) % 0x10000 } }

def dec_r16 (r : R16) (m : Machine) : Machine :=
  withC 8 (m.setR16 r (wrap16i ((m.getR16 r : Int) - 1)))

def dec_sp (m : Machine) : Machine :=
  withC 8 { m with cpu := { m.cpu with sp := wrap16i ((m.cpu.sp : Int) - 1) } }

def add_hl_r16 (r : R16) (m : Machine) : Machine :=
  let value := m.getR16 r
  let result := m.hl + value
  let f := setFlag m.cpu.f 0x40 False
  let f := setFlag f 0x20 ((m.hl &&& 0x0FFF) + (value &&& 0x0FFF) > 0x0FFF)
  let f := setFlag f 0x10 (result > 0xFFFF)
  withC 8 (setHl { m with cpu := { m.cpu with f := f } } (result % 0x10000))

def add_hl_sp (m : Machine) : Machine :=
  let result := m.hl + m.cpu.sp
  let f := setFlag m.cpu.f 0x40 False
  let f := setFlag f 0x20 ((m.hl &&& 0x0FFF) + (m.cpu.sp &&& 0x0FFF) > 0x0FFF)
  let f := setFlag f 0x10 (result > 0xFFFF)
  withC 8 (setHl { m with cpu := { m.cpu with f := f } } (result % 0x10000))

/-- `_add_sp_n`.  `offset & 0x0F` and `offset & 0xFF` on the signed offset
equal the same masks of the raw byte. -/
def add_sp_n (m : Machine) : Machine :=
  let fb := m.fetchByte
  let m := fb.2
  let result : Int := (m.cpu.sp : Int) + signedByte fb.1
  let f := setFlag m.cpu.f 0x80 False
  let f := setFlag f 0x40 False
  let f := setFlag f 0x20 ((m.cpu.sp &&& 0x0F) + (fb.1 &&& 0x0F) > 0x0F)
  let f := setFlag f 0x10 ((m.cpu.sp &&& 0xFF) + (fb.1 &&& 0xFF) > 0xFF)
  withC 16 { m with cpu := { m.cpu with f := f, sp := wrap16i result } }

def ld_hl_sp_n (m : Machine) : Machine :=
  let fb := m.fetchByte
  let m := fb.2
  let result : Int := (m.cpu.sp : Int) + signedByte fb.1
  let f := setFlag m.cpu.f 0x80 False
  let f := setFlag f 0x40 False
  let f := setFlag f 0x20 ((m.cpu.sp &&& 0x0F) + (fb.1 &&& 0x0F) > 0x0F)
  let f := setFlag f 0x10 ((m.cpu.sp &&& 0xFF) + (fb.1 &&& 0xFF) > 0xFF)
  withC 12 (setHl { m with cpu := { m.cpu with f := f } } (wrap16i result))

def inc_r8 (r : R8) (m : Machine) : Machine :=
  let value := m.getR8 r
  let result := (value + 1) % 0x100
  let m := m.setR8 r result
  let f := setFlag m.cpu.f 0x80 (result = 0)
  let f := setFlag f 0x40 False
  let f := setFlag f 0x20 (value &&& 0x0F = 0x0F)
  withC 4 { m with cpu := { m.cpu with f := f } }

def inc_hl_ind (m : Machine) : Machine :=
  let value := m.readByte m.hl
  let result := (value + 1) % 0x100
  let m := m.writeByte m.hl result
  let f := setFlag m.cpu.f 0x80 (result = 0)
  let f := setFlag f 0x40 False
  let f := setFlag f 0x20 (value &&& 0x0F = 0x0F)
  withC 12 { m with cpu := { m.cpu with f := f } }

def dec_r8 (r : R8) (m : Machine) : Machine :=
  let value := m.getR8 r
  let result := wrap8i ((value : Int) - 1)
  let m := m.setR8 r result
  let f := setFlag m.cpu.f 0x80 (result = 0)
  let f := setFlag f 0x40 True
  let f := setFlag f 0x20 (value &&& 0x0F = 0x00)
  withC 4 { m with cpu := { m.cpu with f := f } }

def dec_hl_ind (m : Machine) : Machine :=
  let value := m.readByte m.hl
  let result := wrap8i ((value : Int) - 1)
  let m := m.writeByte m.hl result
  let f := setFlag m.cpu.f 0x80 (result = 0)
  let f := setFlag f 0x40 True
  let f := setFlag f 0x20 (value &&& 0x0F = 0x00)
  withC 12 { m with cpu := { m.cpu with f := f } }

/-! The eight ALU value operations `_add_a` … `_cp_a`. -/

def add_a (value : Nat) (m : Machine) : Machine :=
  let a := m.cpu.a
  let result := a + value
  let f := setFlag m.cpu.f 0x80 (result % 0x100 = 0)
  let f := setFlag f 0x40 False
  let f := setFlag f 0x20 ((a &&& 0x0F) + (value &&& 0x0F) > 0x0F)
  let f := setFlag f 0x10 (result > 0xFF)
  { m with cpu := { m.cpu with f := f, a := result % 0x100 } }

def adc_a (value : Nat) (m : Machine) : Machine :=
  let a := m.cpu.a
  let carry := if getFlag m.cpu.f 0x10 then 1 else 0
  let result := a + value + carry
  let f := setFlag m.cpu.f 0x80 (result % 0x100 = 0)
  let f := setFlag f 0x40 False
  let f := setFlag f 0x20 ((a &&& 0x0F) + (value &&& 0x0F) + carry > 0x0F)
  let f := setFlag f 0x10 (result > 0xFF)
  { m with cpu := { m.cpu with f := f, a := result % 0x100 } }

def sub_a (value : Nat) (m : Machine) : Machine :=
  let a := m.cpu.a
  let result : Int := (a : Int) - value
  let f := setFlag m.cpu.f 0x80 (wrap8i result = 0)
  let f := setFlag f 0x40 True
  let f := setFlag f 0x20 ((a &&& 0x0F) < (value &&& 0x0F))
  let f := setFlag f 0x10 (result < 0)
  { m with cpu := { m.cpu with f := f, a := wrap8i result } }

def sbc_a (value : Nat) (m : Machine) : Machine :=
  let a := m.cpu.a
  let carry : Nat := if getFlag m.cpu.f 0x10 then 1 else 0
  let result : Int := (a : Int) - value - (carry : Int)
  let f := setFlag m.cpu.f 0x80 (wrap8i result = 0)
  let f := setFlag f 0x40 True
  let f := setFlag f 0x20 ((a &&& 0x0F) < (value &&& 0x0F) + carry)
  let f := setFlag f 0x10 (result < 0)
  { m with cpu := { m.cpu with f := f, a := wrap8i result } }

def and_a (value : Nat) (m : Machine) : Machine :=
  let a := m.cpu.a &&& value
  let f := setFlag m.cpu.f 0x80 (a = 0)
  let f := setFlag f 0x40 False
  let f := setFlag f 0x20 True
  let f := setFlag f 0x10 False
  { m with cpu := { m.cpu with f := f, a := a } }

def xor_a (value : Nat) (m : Machine) : Machine :=
  let a := m.cpu.a ^^^ value
  let f := setFlag m.cpu.f 0x80 (a = 0)
  let f := setFlag f 0x40 False
  let f := setFlag f 0x20 False
  let f := setFlag f 0x10 False
  { m with cpu := { m.cpu with f := f, a := a } }

def or_a (value : Nat) (m : Machine) : Machine :=
  let a := m.cpu.a ||| value
  let f := setFlag m.cpu.f 0x80 (a = 0)
  let f := setFlag f 0x40 False
  let f := setFlag f 0x20 False
  let f := setFlag f 0x10 False
  { m with cpu := { m.cpu with f := f, a := a } }

def cp_a (value : Nat) (m : Machine) : Machine :=
  let a := m.cpu.a
  let result : Int := (a : Int) - value
  let f := setFlag m.cpu.f 0x80 (wrap8i result = 0)
  let f := setFlag f 0x40 True
  let f := setFlag f 0x20 ((a &&& 0x0F) < (value &&& 0x0F))
  let f := setFlag f 0x10 (result < 0)
  { m with cpu := { m.cpu with f := f } }

/-- The `alu_ops` table `[_add_a, _adc_a, _sub_a, _sbc_a, _and_a, _xor_a,
_or_a, _cp_a]` indexed by `(opcode - 0x80) / 8`. -/
def aluApply (i value : Nat) (m : Machine) : Machine :=
  if i = 0 then add_a value m
  else if i = 1 then adc_a value m
  else if i = 2 then sub_a value m
  else if i = 3 then sbc_a value m
  else if i = 4 then and_a value m
  else if i = 5 then xor_a value m
  else if i = 6 then or_a value m
  else cp_a value m

def alu_r8 (i : Nat) (r : R8) (m : Machine) : Machine :=
  withC 4 (aluApply i (m.getR8 r) m)

def alu_hl (i : Nat) (m : Machine) : Machine :=
  withC 8 (aluApply i (m.readByte m.hl) m)

def alu_n (i : Nat) (m : Machine) : Machine :=
  let fb := m.fetchByte
  withC 8 (aluApply i fb.1 fb.2)

/-! Rotates on A. -/

def rlca (m : Machine) : Machine :=
  let carry := (m.cpu.a >>> 7) &&& 1
  let a := ((m.cpu.a <<< 1) ||| carry) % 0x100
  let f := setFlag m.cpu.f 0x80 False
  let f := setFlag f 0x40 False
  let f := setFlag f 0x20 False
  let f := setFlag f 0x10 (carry = 1)
  withC 4 { m with cpu := { m.cpu with a := a, f := f } }

def rrca (m : Machine) : Machine :=
  let carry := m.cpu.a &&& 1
  let a := ((m.cpu.a >>> 1) ||| (carry <<< 7)) % 0x100
  let f := setFlag m.cpu.f 0x80 False
  let f := setFlag f 0x40 False
  let f := setFlag f 0x20 False
  let f := setFlag f 0x10 (carry = 1)
  withC 4 { m with cpu := { m.cpu with a := a, f := f } }

def rla (m : Machine) : Machine :=
  let carry := if getFlag m.cpu.f 0x10 then 1 else 0
  let newCarry := (m.cpu.a >>> 7) &&& 1
  let a := ((m.cpu.a <<< 1) ||| carry) % 0x100
  let f := setFlag m.cpu.f 0x80 False
  let f := setFlag f 0x40 False
  let f := setFlag f 0x20 False
  let f := setFlag f 0x10 (newCarry = 1)
  withC 4 { m with cpu := { m.cpu with a := a, f := f } }

def rra (m : Machine) : Machine :=
  let carry := if getFlag m.cpu.f 0x10 then 0x80 else 0
  let newCarry := m.cpu.a &&& 1
  let a := ((m.cpu.a >>> 1) ||| carry) % 0x100
  let f := setFlag m.cpu.f 0x80 False
  let f := setFlag f 0x40 False
  let f := setFlag f 0x20 False
  let f := setFlag f 0x10 (newCarry = 1)
  withC 4 { m with cpu := { m.cpu with a := a, f := f } }

/-! The CB-prefixed rotate/shift value operations: each one sets flags and
returns the result byte; `shiftApply` is the table `[_rlc, _rrc, _rl, _rr,
_sla, _sra, _swap, _srl]` indexed by `opcode / 8`. -/

def rlcOp (value : Nat) (m : Machine) : Machine × Nat :=
  let carry := (value >>> 7) &&& 1
  let result := ((value <<< 1) ||| carry) % 0x100
  let f := setFlag m.cpu.f 0x80 (result = 0)
  let f := setFlag f 0x40 False
  let f := setFlag f 0x20 False
  let f := setFlag f 0x10 (carry = 1)
  ({ m with cpu := { m.cpu with f := f } }, result)

def rrcOp (value : Nat) (m : Machine) : Machine × Nat :=
  let carry := value &&& 1
  let result := ((value >>> 1) ||| (carry <<< 7)) % 0x100
  let f := setFlag m.cpu.f 0x80 (result = 0)
  let f := setFlag f 0x40 False
  let f := setFlag f 0x20 False
  let f := setFlag f 0x10 (carry = 1)
  ({ m with cpu := { m.cpu with f := f } }, result)

def rlOp (value : Nat) (m : Machine) : Machine × Nat :=
  let carry := if getFlag m.cpu.f 0x10 then 1 else 0
  let newCarry := (value >>> 7) &&& 1
  let result := ((value <<< 1) ||| carry) % 0x100
  let f := setFlag m.cpu.f 0x80 (result = 0)
  let f := setFlag f 0x40 False
  let f := setFlag f 0x20 False
  let f := setFlag f 0x10 (newCarry = 1)
  ({ m with cpu := { m.cpu with f := f } }, result)

def rrOp (value : Nat) (m : Machine) : Machine × Nat :=
  let carry := if getFlag m.cpu.f 0x10 then 0x80 else 0
  let newCarry := value &&& 1
  let result := ((value >>> 1) ||| carry) % 0x100
  let f := setFlag m.cpu.f 0x80 (result = 0)
  let f := setFlag f 0x40 False
  let f := setFlag f 0x20 False
  let f := setFlag f 0x10 (newCarry = 1)
  ({ m with cpu := { m.cpu with f := f } }, result)

def slaOp (value : Nat) (m : Machine) : Machine × Nat :=
  let carry := (value >>> 7) &&& 1
  let result := (value <<< 1) % 0x100
  let f := setFlag m.cpu.f 0x80 (result = 0)
  let f := setFlag f 0x40 False
  let f := setFlag f 0x20 False
  let f := setFlag f 0x10 (carry = 1)
  ({ m with cpu := { m.cpu with f := f } }, result)

def sraOp (value : Nat) (m : Machine) : Machine × Nat :=
  let carry := value &&& 1
  let result := ((value >>> 1) ||| (value &&& 0x80)) % 0x100
  let f := setFlag m.cpu.f 0x80 (result = 0)
  let f := setFlag f 0x40 False
  let f := setFlag f 0x20 False
  let f := setFlag f 0x10 (carry = 1)
  ({ m with cpu := { m.cpu with f := f } }, result)

def swapOp (value : Nat) (m : Machine) : Machine × Nat :=
  let result := ((value >>> 4) ||| (value <<< 4)) % 0x100
  let f := setFlag m.cpu.f 0x80 (result = 0)
  let f := setFlag f 0x40 False
  let f := setFlag f 0x20 False
  let f := setFlag f 0x10 False
  ({ m with cpu := { m.cpu with f := f } }, result)

def srlOp (value : Nat) (m : Machine) : Machine × Nat :=
  let carry := value &&& 1
  let result := (value >>> 1) % 0x100
  let f := setFlag m.cpu.f 0x80 (result = 0)
  let f := setFlag f 0x40 False
  let f := setFlag f 0x20 False
  let f := setFlag f 0x10 (carry = 1)
  ({ m with cpu := { m.cpu with f := f } }, result)

def shiftApply (i value : Nat) (m : Machine) : Machine × Nat :=
  if i = 0 then rlcOp value m
  else if i = 1 then rrcOp value m
  else if i = 2 then rlOp value m
  else if i = 3 then rrOp value m
  else if i = 4 then slaOp value m
  else if i = 5 then sraOp value m
  else if i = 6 then swapOp value m
  else srlOp value m

def cb_r8 (i : Nat) (r : R8) (m : Machine) : Machine :=
  let s := shiftApply i (m.getR8 r) m
  withC 8 (s.1.setR8 r s.2)

def cb_hl (i : Nat) (m : Machine) : Machine :=
  let s := shiftApply i (m.readByte m.hl) m
  withC 16 (s.1.writeByte s.1.hl s.2)

def bit_r8 (bi : Nat) (r : R8) (m : Machine) : Machine :=
  let value := m.getR8 r
  let f := setFlag m.cpu.f 0x80 (value &&& (1 <<< bi) = 0)
  let f := setFlag f 0x40 False
  let f := setFlag f 0x20 True
  withC 8 { m with cpu := { m.cpu with f := f } }

def bit_hl (bi : Nat) (m : Machine) : Machine :=
  let value := m.readByte m.hl
  let f := setFlag m.cpu.f 0x80 (value &&& (1 <<< bi) = 0)
  let f := setFlag f 0x40 False
  let f := setFlag f 0x20 True
  withC 12 { m with cpu := { m.cpu with f := f } }

def res_r8 (bi : Nat) (r : R8) (m : Machine) : Machine :=
  withC 8 (m.setR8 r (pyAndNot (m.getR8 r) (1 <<< bi)))

def res_hl (bi : Nat) (m : Machine) : Machine :=
  withC 16 (m.writeByte m.hl (pyAndNot (m.readByte m.hl) (1 <<< bi)))

def set_hl (bi : Nat) (m : Machine) : Machine :=
  withC 16 (m.writeByte m.hl (m.readByte m.hl ||| (1 <<< bi)))

/-- `_daa`.  The second adjustment in the addition branch reads the flags
and the already-adjusted accumulator, exactly as the source does. -/
def daa (m : Machine) : Machine :=
  let s :=
    if ¬ getFlag m.cpu.f 0x40 then
      let s1 :=
        if getFlag m.cpu.f 0x10 ∨ m.cpu.a > 0x99 then
          ((m.cpu.a + 0x60) % 0x100, setFlag m.cpu.f 0x10 True)
        else (m.cpu.a, m.cpu.f)
      if getFlag s1.2 0x20 ∨ s1.1 &&& 0x0F > 0x09 then ((s1.1 + 0x06) % 0x100, s1.2)
      else s1
    else
      let a1 := if getFlag m.cpu.f 0x10 then wrap8i ((m.cpu.a : Int) - 0x60) else m.cpu.a
      let a2 := if getFlag m.cpu.f 0x20 then wrap8i ((a1 : Int) - 0x06) else a1
      (a2, m.cpu.f)
  let f := setFlag s.2 0x80 (s.1 = 0)
  let f := setFlag f 0x20 False
  withC 4 { m with cpu := { m.cpu with a := s.1, f := f } }

def cpl (m : Machine) : Machine :=
  let f := setFlag m.cpu.f 0x40 True
  let f := setFlag f 0x20 True
  withC 4 { m with cpu := { m.cpu with a := m.cpu.a ^^^ 0xFF, f := f } }

def scf (m : Machine) : Machine :=
  let f := setFlag m.cpu.f 0x40 False
  let f := setFlag f 0x20 False
  let f := setFlag f 0x10 True
  withC 4 { m with cpu := { m.cpu with f := f } }

def ccf (m : Machine) : Machine :=
  let f := setFlag m.cpu.f 0x40 False
  let f := setFlag f 0x20 False
  let f := setFlag f 0x10 (¬ getFlag f 0x10)
  withC 4 { m with cpu := { m.cpu with f := f } }

/-! Jumps, calls, returns, stack, interrupts-enable. -/

def jp_nn (m : Machine) : Machine :=
  let fw := m.fetchWord
  withC 16 { fw.2 with cpu := { fw.2.cpu with pc := fw.1 } }

def jp_cc_nn (cond : Bool) (m : Machine) : Machine :=
  let fw := m.fetchWord
  if cond then withC 16 { fw.2 with cpu := { fw.2.cpu with pc := fw.1 } }
  else withC 12 fw.2

def jp_hl (m : Machine) : Machine :=
  withC 4 { m with cpu := { m.cpu with pc := m.hl } }

def jr (m : Machine) : Machine :=
  let fb := m.fetchByte
  withC 12 { fb.2 with cpu := { fb.2.cpu with
    pc := wrap16i ((fb.2.cpu.pc : Int) + signedByte fb.1) } }

def jr_cc (cond : Bool) (m : Machine) : Machine :=
  let fb := m.fetchByte
  if cond then
    withC 12 { fb.2 with cpu := { fb.2.cpu with
      pc := wrap16i ((fb.2.cpu.pc : Int) + signedByte fb.1) } }
  else withC 8 fb.2

def call_nn (m : Machine) : Machine :=
  let fw := m.fetchWord
  let m := fw.2.pushWord fw.2.cpu.pc
  withC 24 { m with cpu := { m.cpu with pc := fw.1 } }

def call_cc_nn (cond : Bool) (m : Machine) : Machine :=
  let fw := m.fetchWord
  if cond then
    let m := fw.2.pushWord fw.2.cpu.pc
    withC 24 { m with cpu := { m.cpu with pc := fw.1 } }
  else withC 12 fw.2

def ret (m : Machine) : Machine :=
  let pw := m.popWord
  withC 16 { pw.2 with cpu := { pw.2.cpu with pc := pw.1 } }

def ret_cc (cond : Bool) (m : Machine) : Machine :=
  if cond then
    let pw := m.popWord
    withC 20 { pw.2 with cpu := { pw.2.cpu with pc := pw.1 } }
  else withC 8 m

def reti (m : Machine) : Machine :=
  let pw := m.popWord
  withC 16 { pw.2 with cpu := { pw.2.cpu with pc := pw.1, ime := true } }

def rst (addr : Nat) (m : Machine) : Machine :=
  let m := m.pushWord m.cpu.pc
  withC 16 { m with cpu := { m.cpu with pc := addr } }

def push_r16 (r : R16) (m : Machine) : Machine :=
  withC 16 (m.pushWord (m.getR16 r))

def push_af (m : Machine) : Machine :=
  withC 16 (m.pushWord ((m.cpu.a <<< 8) ||| (m.cpu.f &&& 0xF0)))

def pop_r16 (r : R16) (m : Machine) : Machine :=
  let pw := m.popWord
  withC 12 (pw.2.setR16 r pw.1)

def pop_af (m : Machine) : Machine :=
  let pw := m.popWord
  withC 12 { pw.2 with cpu := { pw.2.cpu with
    a := (pw.1 >>> 8) &&& 0xFF, f := pw.1 &&& 0xF0 } }

def di (m : Machine) : Machine :=
  withC 4 { m with cpu := { m.cpu with ime := false } }

def ei (m : Machine) : Machine :=
  withC 4 { m with cpu := { m.cpu with imeScheduled := true } }

end Insn

/-! ### Opcode dispatch

`_build_opcode_table` fills a 256-entry table: explicit assignments for most
opcodes, index-arithmetic loops for `LD r,r` (`0x40 + dst*8 + src`), the ALU
block (`0x80 + op*8 + src`), and `RST` (`0xC7 + i*8`).  The loop-generated
regions are decoded here by the same index arithmetic; entries the source
never assigns stay `None`, and `step` raises `RuntimeError` for them.
`_build_cb_opcode_table` is generated entirely by loops over `op = cb / 8`
(or bit index) and `reg = cb % 8` and is decoded arithmetically. -/

open Insn in
/-- The explicitly-assigned opcodes `0x00`–`0x3F`. -/
def exec0x (op : Nat) (m : Machine) : Except PyExn Machine :=
  if op = 0x00 then .ok (nop m)
  else if op = 0x01 then .ok (ld_r16_nn .BC m)
  else if op = 0x02 then .ok (ld_r16_a .BC m)
  else if op = 0x03 then .ok (inc_r16 .BC m)
  else if op = 0x04 then .ok (inc_r8 .B m)
  else if op = 0x05 then .ok (dec_r8 .B m)
  else if op = 0x06 then .ok (ld_r8_n .B m)
  else if op = 0x07 then .ok (rlca m)
  else if op = 0x08 then .ok (ld_nn_sp m)
  else if op = 0x09 then .ok (add_hl_r16 .BC m)
  else if op = 0x0A then .ok (ld_a_r16 .BC m)
  else if op = 0x0B then .ok (dec_r16 .BC m)
  else if op = 0x0C then .ok (inc_r8 .C m)
  else if op = 0x0D then .ok (dec_r8 .C m)
  else if op = 0x0E then .ok (ld_r8_n .C m)
  else if op = 0x0F then .ok (rrca m)
  else if op = 0x10 then .ok (stop m)
  else if op = 0x11 then .ok (ld_r16_nn .DE m)
  else if op = 0x12 then .ok (ld_r16_a .DE m)
  else if op = 0x13 then .ok (inc_r16 .DE m)
  else if op = 0x14 then .ok (inc_r8 .D m)
  else if op = 0x15 then .ok (dec_r8 .D m)
  else if op = 0x16 then .ok (ld_r8_n .D m)
  else if op = 0x17 then .ok (rla m)
  else if op = 0x18 then .ok (jr m)
  else if op = 0x19 then .ok (add_hl_r16 .DE m)
  else if op = 0x1A then .ok (ld_a_r16 .DE m)
  else if op = 0x1B then .ok (dec_r16 .DE m)
  else if op = 0x1C then .ok (inc_r8 .E m)
  else if op = 0x1D then .ok (dec_r8 .E m)
  else if op = 0x1E then .ok (ld_r8_n .E m)
  else if op = 0x1F then .ok (rra m)
  else if op = 0x20 then .ok (jr_cc (! getFlag m.cpu.f 0x80) m)
  else if op = 0x21 then .ok (ld_r16_nn .HL m)
  else if op = 0x22 then .ok (ld_hli_a m)
  else if op = 0x23 then .ok (inc_r16 .HL m)
  else if op = 0x24 then .ok (inc_r8 .H m)
  else if op = 0x25 then .ok (dec_r8 .H m)
  else if op = 0x26 then .ok (ld_r8_n .H m)
  else if op = 0x27 then .ok (daa m)
  else if op = 0x28 then .ok (jr_cc (getFlag m.cpu.f 0x80) m)
  else if op = 0x29 then .ok (add_hl_r16 .HL m)
  else if op = 0x2A then .ok (ld_a_hli m)
  else if op = 0x2B then .ok (dec_r16 .HL m)
  else if op = 0x2C then .ok (inc_r8 .L m)
  else if op = 0x2D then .ok (dec_r8 .L m)
  else if op = 0x2E then .ok (ld_r8_n .L m)
  else if op = 0x2F then .ok (cpl m)
  else if op = 0x30 then .ok (jr_cc (! getFlag m.cpu.f 0x10) m)
  else if op = 0x31 then .ok (ld_sp_nn m)
  else if op = 0x32 then .ok (ld_hld_a m)
  else if op = 0x33 then .ok (inc_sp m)
  else if op = 0x34 then .ok (inc_hl_ind m)
  else if op = 0x35 then .ok (dec_hl_ind m)
  else if op = 0x36 then .ok (ld_hl_n m)
  else if op = 0x37 then .ok (scf m)
  else if op = 0x38 then .ok (jr_cc (getFlag m.cpu.f 0x10) m)
  else if op = 0x39 then .ok (add_hl_sp m)
  else if op = 0x3A then .ok (ld_a_hld m)
  else if op = 0x3B then .ok (dec_sp m)
  else if op = 0x3C then .ok (inc_r8 .A m)
  else if op = 0x3D then .ok (dec_r8 .A m)
  else if op = 0x3E then .ok (ld_r8_n .A m)
  else if op = 0x3F then .ok (ccf m)
  else .error .runtimeError

open Insn in
/-- The explicitly-assigned opcodes `0xC0`–`0xFF` (the `RST` family is the
loop `0xC7 + i*8` with vector `i*8`).  The eleven table slots the source
leaves as `None` (`0xD3, 0xDB, 0xDD, 0xE3, 0xE4, 0xEB, 0xEC, 0xED, 0xF4,
0xFC, 0xFD`) fall through to `RuntimeError`. -/
def execHi (op : Nat) (m : Machine) : Except PyExn Machine :=
  if op = 0xC0 then .ok (ret_cc (! getFlag m.cpu.f 0x80) m)
  else if op = 0xC1 then .ok (pop_r16 .BC m)
  else if op = 0xC2 then .ok (jp_cc_nn (! getFlag m.cpu.f 0x80) m)
  else if op = 0xC3 then .ok (jp_nn m)
  else if op = 0xC4 then .ok (call_cc_nn (! getFlag m.cpu.f 0x80) m)
  else if op = 0xC5 then .ok (push_r16 .BC m)
  else if op = 0xC6 then .ok (alu_n 0 m)
  else if op = 0xC7 then .ok (rst 0x00 m)
  else if op = 0xC8 then .ok (ret_cc (getFlag m.cpu.f 0x80) m)
  else if op = 0xC9 then .ok (ret m)
  else if op = 0xCA then .ok (jp_cc_nn (getFlag m.cpu.f 0x80) m)
  else if op = 0xCC then .ok (call_cc_nn (getFlag m.cpu.f 0x80) m)
  else if op = 0xCD then .ok (call_nn m)
  else if op = 0xCE then .ok (alu_n 1 m)
  else if op = 0xCF then .ok (rst 0x08 m)
  else if op = 0xD0 then .ok (ret_cc (! getFlag m.cpu.f 0x10) m)
  else if op = 0xD1 then .ok (pop_r16 .DE m)
  else if op = 0xD2 then .ok (jp_cc_nn (! getFlag m.cpu.f 0x10) m)
  else if op = 0xD4 then .ok (call_cc_nn (! getFlag m.cpu.f 0x10) m)
  else if op = 0xD5 then .ok (push_r16 .DE m)
  else if op = 0xD6 then .ok (alu_n 2 m)
  else if op = 0xD7 then .ok (rst 0x10 m)
  else if op = 0xD8 then .ok (ret_cc (getFlag m.cpu.f 0x10) m)
  else if op = 0xD9 then .ok (reti m)
  else if op = 0xDA then .ok (jp_cc_nn (getFlag m.cpu.f 0x10) m)
  else if op = 0xDC then .ok (call_cc_nn (getFlag m.cpu.f 0x10) m)
  else if op = 0xDE then .ok (alu_n 3 m)
  else if op = 0xDF then .ok (rst 0x18 m)
  else if op = 0xE0 then .ok (ldh_n_a m)
  else if op = 0xE1 then .ok (pop_r16 .HL m)
  else if op = 0xE2 then .ok (ldh_c_a m)
  else if op = 0xE5 then .ok (push_r16 .HL m)
  else if op = 0xE6 then .ok (alu_n 4 m)
  else if op = 0xE7 then .ok (rst 0x20 m)
  else if op = 0xE8 then .ok (add_sp_n m)
  else if op = 0xE9 then .ok (jp_hl m)
  else if op = 0xEA then .ok (ld_nn_a m)
  else if op = 0xEE then .ok (alu_n 5 m)
  else if op = 0xEF then .ok (rst 0x28 m)
  else if op = 0xF0 then .ok (ldh_a_n m)
  else if op = 0xF1 then .ok (pop_af m)
  else if op = 0xF2 then .ok (ldh_a_c m)
  else if op = 0xF3 then .ok (di m)
  else if op = 0xF5 then .ok (push_af m)
  else if op = 0xF6 then .ok (alu_n 6 m)
  else if op = 0xF7 then .ok (rst 0x30 m)
  else if op = 0xF8 then .ok (ld_hl_sp_n m)
  else if op = 0xF9 then .ok (ld_sp_hl m)
  else if op = 0xFA then .ok (ld_a_nn m)
  else if op = 0xFB then .ok (ei m)
  else if op = 0xFE then .ok (alu_n 7 m)
  else if op = 0xFF then .ok (rst 0x38 m)
  else .error .runtimeError

open Insn in
/-- The CB-prefixed table.  For `SET b, r` with a plain register the table
entry is `lambda: self._set_r8(b, r)`, which calls the *register setter*
with the bit number as attribute name and the register name string as value;
evaluating `value & 0xFF` on that string raises `TypeError` before any state
change, so those entries are `Except.error .typeError`. -/
def execCB (cb : Nat) (m : Machine) : Except PyExn Machine :=
  if cb < 0x40 then
    let i := cb / 8
    let reg := cb % 8
    if reg = 6 then .ok (cb_hl i m) else .ok (cb_r8 i (decodeR8 reg) m)
  else if cb < 0x80 then
    let bi := (cb - 0x40) / 8
    let reg := cb % 8
    if reg = 6 then .ok (bit_hl bi m) else .ok (bit_r8 bi (decodeR8 reg) m)
  else if cb < 0xC0 then
    let bi := (cb - 0x80) / 8
    let reg := cb % 8
    if reg = 6 then .ok (res_hl bi m) else .ok (res_r8 bi (decodeR8 reg) m)
  else
    let bi := (cb - 0xC0) / 8
    let reg := cb % 8
    if reg = 6 then .ok (set_hl bi m) else .error .typeError

open Insn in
/-- Fetch-free opcode execution: the table lookup plus handler call of
`CPU.step` for an already-fetched opcode byte. -/
def execOpcode (op : Nat) (m : Machine) : Except PyExn Machine :=
  if op = 0xCB then
    let fb := m.fetchByte
    execCB fb.1 fb.2
  else if op < 0x40 then exec0x op m
  else if op < 0x80 then
    if op = 0x76 then .ok (halt m)
    else
      let dst := (op - 0x40) / 8
      let src := (op - 0x40) % 8
      if dst = 6 then .ok (ld_hl_r8 (decodeR8 src) m)
      else if src = 6 then .ok (ld_r8_hl (decodeR8 dst) m)
      else .ok (ld_r8_r8 (decodeR8 dst) (decodeR8 src) m)
  else if op < 0xC0 then
    let i := (op - 0x80) / 8
    let src := (op - 0x80) % 8
    if src = 6 then .ok (alu_hl i m)
    else .ok (alu_r8 i (decodeR8 src) m)
  else execHi op m

/-! ### Interrupt dispatch and `CPU.step` -/

/-- The body of the priority loop in `CPU._handle_interrupts` for the
selected `(bit, vector)` pair: clear IME, clear the IF bit, push PC, jump to
the vector, and report 20 cycles. -/
def serviceInt (m : Machine) (ifv bit vector : Nat) : Machine × Nat :=
  let m := { m with cpu := { m.cpu with ime := false } }
  let m := m.writeByte 0xFF0F (pyAndNot ifv (1 <<< bit))
  let m := m.pushWord m.cpu.pc
  ({ m with cpu := { m.cpu with pc := vector } }, 20)

/-- `CPU._handle_interrupts`: the priority loop over
`[(0, 0x40), (1, 0x48), (2, 0x50), (3, 0x58), (4, 0x60)]`, unrolled. -/
def handleInterrupts (m : Machine) : Machine × Nat :=
  let ie := m.readByte 0xFFFF
  let ifv := m.readByte 0xFF0F
  let pending := ie &&& ifv &&& 0x1F
  if pending = 0 then (m, 0)
  else
    let m := { m with cpu := { m.cpu with halted := false } }
    if pending &&& 1 ≠ 0 then serviceInt m ifv 0 0x40
    else if pending &&& 2 ≠ 0 then serviceInt m ifv 1 0x48
    else if pending &&& 4 ≠ 0 then serviceInt m ifv 2 0x50
    else if pending &&& 8 ≠ 0 then serviceInt m ifv 3 0x58
    else if pending &&& 16 ≠ 0 then serviceInt m ifv 4 0x60
    else (m, 0)

/-- The tail of `CPU.step` after the interrupt gate and the HALT release:
the STOP short-circuit, then fetch, dispatch, and the cycle commit. -/
def stepRest (m : Machine) : Except PyExn (Machine × Nat) :=
  if m.cpu.stopped then .ok (m, 4)
  else
    let fb := m.fetchByte
    match execOpcode fb.1 fb.2 with
    | .error exn => .error exn
    | .ok m2 =>
        let m3 := { m2 with cpu := { m2.cpu with
          totalCycles := m2.cpu.totalCycles + m2.cpu.cycles } }
        .ok (m3, m3.cpu.cycles)

/-- The HALT gate of `CPU.step`: while halted, a pending enabled interrupt
releases the halt (execution continues), otherwise the step burns 4 cycles. -/
def stepHalt (m : Machine) : Except PyExn (Machine × Nat) :=
  if m.cpu.halted then
    let ie := m.readByte 0xFFFF
    let ifv := m.readByte 0xFF0F
    if ie &&& ifv &&& 0x1F ≠ 0 then
      stepRest { m with cpu := { m.cpu with halted := false } }
    else .ok (m, 4)
  else stepRest m

/-- `CPU.step`: reset the cycle counter, promote a scheduled IME, dispatch a
pending enabled interrupt if IME is set, then HALT/STOP gates, then fetch
and execute one instruction.  Returns the machine and the cycles consumed,
or the Python exception that escaped. -/
def CPU.step (m : Machine) : Except PyExn (Machine × Nat) :=
  let m := { m with cpu := { m.cpu with cycles := 0 } }
  let m :=
    if m.cpu.imeScheduled then
      { m with cpu := { m.cpu with ime := true, imeScheduled := false } }
    else m
  if m.cpu.ime then
    let hi := handleInterrupts m
    if hi.2 > 0 then .ok hi
    else stepHalt hi.1
  else stepHalt m

/-! ## The PPU mode machine (`ppu.py`, class `PPU`)

Only the mode state machine is embedded concretely.  The two rasterizer
helpers `_scan_oam` (which writes `sprite_buffer` after reading OAM) and
`_render_scanline` (which writes the framebuffer and the scratch line
buffers after reading VRAM/palettes) are taken as parameters: their effect
footprints in the source are exactly "replace `sprite_buffer`" and "replace
the framebuffer", and no claim depends on the pixels they produce.  The
`on_vblank` callback installed by the emulator is `pass` and the other
callbacks are `None`, so none appear here. -/

/-- The PPU-owned state: the current mode (0 = HBlank, 1 = VBlank,
2 = OAM scan, 3 = Transfer), the cycle budget inside the mode, `ly`, the
internal window line counter, the frame counter, and the framebuffer and
sprite buffer at their parametrised types. -/
structure PPUState (α σ : Type) where
  mode : Nat
  cycles : Nat
  ly : Nat
  windowLine : Nat
  frameCount : Nat
  framebuffer : α
  spriteBuffer : σ

/-- `PPU._mode_cycles`. -/
def modeCycles {α σ : Type} (p : PPUState α σ) : Nat :=
  if p.mode = 2 then 80
  else if p.mode = 3 then 172
  else if p.mode = 0 then 204
  else 456

/-- `PPU._update_stat`: store the mode into STAT bits 0–1. -/
def updateStat (mode : Nat) (mem : Mem) : Mem :=
  { mem with ioRegs := upd1 mem.ioRegs 0x41 ((mem.ioRegs 0x41 &&& 0xFC) ||| mode) }

/-- `PPU._check_lyc`: update the coincidence flag and return the STAT
interrupt bits it contributes. -/
def checkLyc (ly : Nat) (mem : Mem) : Nat × Mem :=
  if ly = mem.ioRegs 0x45 then
    let mem := { mem with ioRegs := upd1 mem.ioRegs 0x41 (mem.ioRegs 0x41 ||| 0x04) }
    if mem.ioRegs 0x41 &&& 0x40 ≠ 0 then (0x02, mem) else (0, mem)
  else
    (0, { mem with ioRegs := upd1 mem.ioRegs 0x41 (mem.ioRegs 0x41 &&& 0xFB) })

/-- `PPU._advance_mode`: one mode transition, returning the interrupt bits
it asserts (bit 0 = VBlank, bit 1 = STAT). -/
def advanceMode {α σ : Type} (scanOam : PPUState α σ → Mem → σ)
    (render : PPUState α σ → Mem → α)
    (p : PPUState α σ) (mem : Mem) : Nat × PPUState α σ × Mem :=
  if p.mode = 2 then
    let p := { p with spriteBuffer := scanOam p mem }
    let p := { p with mode := 3 }
    (0, p, updateStat p.mode mem)
  else if p.mode = 3 then
    let p := { p with framebuffer := render p mem }
    let p := { p with mode := 0 }
    let mem := updateStat p.mode mem
    let ints := if mem.ioRegs 0x41 &&& 0x08 ≠ 0 then 0x02 else 0
    let mem := if mem.cgbMode then mem.doHdmaTransfer else mem
    (ints, p, mem)
  else if p.mode = 0 then
    let p := { p with ly := p.ly + 1 }
    let mem := { mem with ioRegs := upd1 mem.ioRegs 0x44 p.ly }
    if p.ly = 144 then
      let p := { p with mode := 1, frameCount := p.frameCount + 1 }
      let mem := updateStat 1 mem
      let ints := 0x01 ||| (if mem.ioRegs 0x41 &&& 0x10 ≠ 0 then 0x02 else 0)
      let c := checkLyc p.ly mem
      (ints ||| c.1, p, c.2)
    else
      let p := { p with mode := 2 }
      let mem := updateStat 2 mem
      let ints := if mem.ioRegs 0x41 &&& 0x20 ≠ 0 then 0x02 else 0
      let c := checkLyc p.ly mem
      (ints ||| c.1, p, c.2)
  else
    let p := { p with ly := p.ly + 1 }
    let mem := { mem with ioRegs := upd1 mem.ioRegs 0x44 p.ly }
    if p.ly ≥ 154 then
      let p := { p with ly := 0, windowLine := 0, mode := 2 }
      let mem := { mem with ioRegs := upd1 mem.ioRegs 0x44 0 }
      let mem := updateStat 2 mem
      let ints := if mem.ioRegs 0x41 &&& 0x20 ≠ 0 then 0x02 else 0
      let c := checkLyc p.ly mem
      (ints ||| c.1, p, c.2)
    else
      let c := checkLyc p.ly mem
      (c.1, p, c.2)

/-- The `while self.cycles >= self._mode_cycles()` loop of `PPU.step`,
accumulating interrupt bits.  Termination: `_advance_mode` never touches the
in-mode cycle budget and every mode's budget is positive, so the budget
strictly decreases. -/
def ppuLoop {α σ : Type} (scanOam : PPUState α σ → Mem → σ)
    (render : PPUState α σ → Mem → α)
    (acc : Nat) (p : PPUState α σ) (mem : Mem) : Nat × PPUState α σ × Mem :=
  if _h : modeCycles p ≤ p.cycles then
    let r := advanceMode scanOam render { p with cycles := p.cycles - modeCycles p } mem
    ppuLoop scanOam render (acc ||| r.1) r.2.1 r.2.2
  else (acc, p, mem)
termination_by p.cycles
decreasing_by
  have hc : (advanceMode scanOam render { p with cycles := p.cycles - modeCycles p }
      mem).2.1.cycles = p.cycles - modeCycles p := by
    simp only [advanceMode]
    split_ifs <;> rfl
  have hpos : 0 < modeCycles p := by
    unfold modeCycles
    split_ifs <;> norm_num
  simp only [hc]
  omega

/-- `PPU.step`: with the LCD disabled it returns 0 immediately and changes
nothing; otherwise it banks the incoming cycles and runs mode transitions. -/
def PPU.step {α σ : Type} (scanOam : PPUState α σ → Mem → σ)
    (render : PPUState α σ → Mem → α)
    (cycles : Nat) (p : PPUState α σ) (mem : Mem) : Nat × PPUState α σ × Mem :=
  if mem.ioRegs 0x40 &&& 0x80 = 0 then (0, p, mem)
  else ppuLoop scanOam render 0 { p with cycles := p.cycles + cycles } mem

/-! ## Support definitions for the claim statements -/

/-- The cycle count of a successful `CPU.step` (0 for an escaped exception). -/
def okCycles (r : Except PyExn (Machine × Nat)) : Nat :=
  match r with
  | .ok x => x.2
  | .error _ => 0

/-- The machine of a successful `CPU.step` (a fixed dummy machine for an
escaped exception). -/
def okMachine (r : Except PyExn (Machine × Nat)) : Machine :=
  match r with
  | .ok x => x.1
  | .error _ => { cpu := cpuInit, mem := Mem.init }

/-- The result of a `CPU.step`'s used only as "did it raise, and what". -/
def stepExn (r : Except PyExn (Machine × Nat)) : Option PyExn :=
  match r with
  | .ok _ => none
  | .error exn => some exn

/-- F-low-nibble invariant carried through the opcode dispatch: holds of a
successful result's machine, vacuous for an exception. -/
def fokr : Except PyExn Machine → Prop
  | .ok m2 => m2.cpu.f &&& 0x0F = 0
  | .error _ => True

/-- The bit the priority loop of `_handle_interrupts` selects from a nonzero
pending mask (bit 0 = VBlank first). -/
def intBit (pending : Nat) : Nat :=
  if pending &&& 1 ≠ 0 then 0
  else if pending &&& 2 ≠ 0 then 1
  else if pending &&& 4 ≠ 0 then 2
  else if pending &&& 8 ≠ 0 then 3
  else 4

/-- The vector paired with that bit in the priority list
`[(0, 0x40), (1, 0x48), (2, 0x50), (3, 0x58), (4, 0x60)]`. -/
def intVector (pending : Nat) : Nat :=
  if pending &&& 1 ≠ 0 then 0x40
  else if pending &&& 2 ≠ 0 then 0x48
  else if pending &&& 4 ≠ 0 then 0x50
  else if pending &&& 8 ≠ 0 then 0x58
  else 0x60

/-- The machine right after `step`'s cycle reset, IME promotion, and the
interrupt path of `_handle_interrupts` up to (but excluding) the IF write,
the push, and the vector jump. -/
def preDispatch (m : Machine) : Machine :=
  { m with cpu :=
      { m.cpu with cycles := 0, ime := false, imeScheduled := false, halted := false } }

/-- The full machine produced by an interrupt dispatch inside `CPU.step`:
clear IME, clear the selected IF bit, push PC, jump to the vector. -/
def dispatched (m : Machine) : Machine :=
  let ifv := m.mem.read 0xFF0F
  let pending := m.mem.read 0xFFFF &&& ifv &&& 0x1F
  let m2 := (preDispatch m).writeByte 0xFF0F (pyAndNot ifv (1 <<< intBit pending))
  let m3 := m2.pushWord m.cpu.pc
  { m3 with cpu := { m3.cpu with pc := intVector pending } }

/-- The opcode bytes whose main-table entries the source never assigns
(truly invalid LR35902 opcodes). -/
def invalidOps : List Nat :=
  [0xD3, 0xDB, 0xDD, 0xE3, 0xE4, 0xEB, 0xEC, 0xED, 0xF4, 0xFC, 0xFD]

/-- The `mode` latch of an `MBC1` (0 for other variants). -/
def MBC.mbc1Mode (m : MBC) : Nat :=
  match m.var with
  | .mbc1 mode _ _ => mode
  | _ => 0

/-- The 5-bit lower ROM-bank latch of an `MBC1`. -/
def MBC.mbc1Low (m : MBC) : Nat :=
  match m.var with
  | .mbc1 _ low _ => low
  | _ => 0

/-- The 2-bit upper latch of an `MBC1`. -/
def MBC.mbc1High (m : MBC) : Nat :=
  match m.var with
  | .mbc1 _ _ high => high
  | _ => 0

/-- Apply a sequence of `write_rom` calls. -/
def mbc1Apply (init : MBC) (ws : List (Nat × Nat)) : MBC :=
  ws.foldl (fun s w => s.writeRom w.1 w.2) init

/-- The invariant tying the `MBC1` latches to the effective banks. -/
def MBC1Good (m : MBC) : Prop :=
  m.var = MBCVar.mbc1 m.mbc1Mode m.mbc1Low m.mbc1High ∧
  (m.mbc1Mode = 0 → m.com.romBank = (m.mbc1High <<< 5) ||| m.mbc1Low ∧ m.com.ramBank = 0) ∧
  (m.mbc1Mode = 1 → m.com.romBank = m.mbc1Low ∧ m.com.ramBank = m.mbc1High)

/-! ### Concrete states for the end-to-end scenarios -/

/-- Memory for the interrupt-dispatch scenario: IE = 0x01, IF = 0x01. -/
def memIntr : Mem :=
  { Mem.init with ie := 1, ioRegs := fun i => if i = 0x0F then 1 else 0 }

/-- CPU+memory for the interrupt-dispatch scenario: PC = 0x0150, IME = 1,
SP = 0xFFFE. -/
def machIntr : Machine :=
  { cpu := { cpuInit with pc := 0x0150, ime := true }, mem := memIntr }

/-- Memory for the timer scenario: TAC = 0x05, TIMA = 0xFE, TMA = 0xAA,
IF = 0, internal counters 0. -/
def memTimer : Mem :=
  { Mem.init with ioRegs := fun i =>
      if i = 0x07 then 0x05 else if i = 0x05 then 0xFE
      else if i = 0x06 then 0xAA else 0 }

/-- Machine that has just executed EI (`ime_scheduled` set, IME still clear)
with an enabled interrupt already pending and `INC B` (0x04) as the next
instruction at PC = 0xC000. -/
def machEi : Machine :=
  { cpu := { cpuInit with pc := 0xC000, ime := false, imeScheduled := true },
    mem :=
      { Mem.init with
        ie := 1,
        ioRegs := fun i => if i = 0x0F then 1 else 0,
        wram := fun b i => if b = 0 ∧ i = 0 then 0x04 else 0 } }

/-- Machine about to execute EI (0xFB) at PC = 0xC000, no interrupt state. -/
def machEiOp : Machine :=
  { cpu := { cpuInit with pc := 0xC000 },
    mem := { Mem.init with wram := fun b i => if b = 0 ∧ i = 0 then 0xFB else 0 } }

/-- Machine about to execute DI (0xF3) at PC = 0xC000 with IME set and no
pending interrupt. -/
def machDi : Machine :=
  { cpu := { cpuInit with pc := 0xC000, ime := true },
    mem := { Mem.init with wram := fun b i => if b = 0 ∧ i = 0 then 0xF3 else 0 } }

/-- Machine about to execute the invalid opcode 0xD3 at PC = 0xC000. -/
def machInvalid : Machine :=
  { cpu := { cpuInit with pc := 0xC000 },
    mem := { Mem.init with wram := fun b i => if b = 0 ∧ i = 0 then 0xD3 else 0 } }

/-- Machine about to execute `SET 0, A` (bytes 0xCB 0xC7) at PC = 0xC000. -/
def machSetBit : Machine :=
  { cpu := { cpuInit with pc := 0xC000 },
    mem := { Mem.init with wram := fun b i =>
      if b = 0 ∧ i = 0 then 0xCB else if b = 0 ∧ i = 1 then 0xC7 else 0 } }

/-- Machine about to execute `NOP` at PC = 0xC000 (zeroed WRAM). -/
def machNop : Machine :=
  { cpu := { cpuInit with pc := 0xC000 }, mem := Mem.init }

/-- GBC-mode memory, HDMA armed for 6 blocks by writing 0x85 to 0xFF55,
after one HBlank block transfer (80 bytes = 5 blocks remain). -/
def memHdmaArmed : Mem :=
  (({ Mem.init with cgbMode := true } : Mem).write 0xFF55 0x85).doHdmaTransfer

/-- `memHdmaArmed` after cancelling the armed HDMA by writing 0x00. -/
def memHdmaCancelled : Mem :=
  memHdmaArmed.write 0xFF55 0x00

/-- A PPU state at the start of an OAM scan, for the disabled-LCD scenario. -/
def ppu0 : PPUState Unit Unit :=
  { mode := 2, cycles := 0, ly := 0, windowLine := 0, frameCount := 0,
    framebuffer := (), spriteBuffer := () }

/-! ## General lemmas -/

/-- Anything already masked with `0xF0` has a zero low nibble. -/
theorem maskF0_low (x : Nat) : x &&& 0xF0 &&& 0x0F = 0 := by
  rw [Nat.and_assoc, show (0xF0 : Nat) &&& 0x0F = 0 from by decide, Nat.and_zero]

/-- `setFlag` always leaves the low nibble of F zero (it ends in `&= 0xF0`). -/
@[simp] theorem setFlag_low (f flag : Nat) (p : Prop) [Decidable p] :
    setFlag f flag p &&& 0x0F = 0 := by
  unfold setFlag
  exact maskF0_low _

/-- A value with bit 2 forced on stays nonzero under `&&& 0x04`. -/
theorem or_four_and_four (x : Nat) : (x ||| 4) &&& 4 ≠ 0 := by
  have h2 : (x ||| 4) &&& 2 ^ 2 = ((x ||| 4).testBit 2).toNat * 2 ^ 2 :=
    Nat.and_two_pow _ 2
  have h3 : (x ||| 4).testBit 2 = true := by
    rw [Nat.testBit_or]
    have h4 : Nat.testBit 4 2 = true := by decide
    simp [h4]
  norm_num [h3] at h2
  norm_num [h2]

/-! ## C10 — PPU step with the LCD disabled -/

/-- C10: when LCDC bit 7 is clear, `PPU.step` returns interrupt mask 0 and
leaves the PPU state (mode, LY, cycle counter, window line, frame count,
framebuffer, sprite buffer) and the whole memory unchanged, for every cycle
count and every pair of rasterizer functions. -/
theorem C10_ppu_disabled {α σ : Type} (scanOam : PPUState α σ → Mem → σ)
    (render : PPUState α σ → Mem → α) (c : Nat) (p : PPUState α σ) (mem : Mem)
    (hoff : mem.ioRegs 0x40 &&& 0x80 = 0) :
    PPU.step scanOam render c p mem = (0, p, mem) := by
  unfold PPU.step
  rw [if_pos hoff]

/-- Witness for C10 at a concrete disabled-LCD memory and a full frame's
worth of cycles. -/
theorem C10_ppu_disabled_witness :
    (Mem.init.ioRegs 0x40 &&& 0x80 = 0) ∧
    PPU.step (fun (_ : PPUState Unit Unit) (_ : Mem) => ()) (fun _ _ => ())
      70224 ppu0 Mem.init = (0, ppu0, Mem.init) :=
  ⟨by decide, C10_ppu_disabled _ _ _ _ _ (by decide)⟩

/-! ## C2 — timer overflow -/

/-- C2 counterexample: from TAC = 0x05, TIMA = 0xFE, TMA = 0xAA, IF = 0,
48 cycles of `update_timer` perform three increments
(0xFE → 0xFF → overflow reload 0xAA → 0xAB), so TIMA ends at 0xAB, not the
0xAA the claim states. -/
theorem C2_counterexample :
    (memTimer.updateTimer 48).ioRegs 0x05 = 0xAB ∧
    ¬ (memTimer.updateTimer 48).ioRegs 0x05 = 0xAA := by
  decide

/-- C2 (amended): a TIMA increment from 0xFF reloads TIMA with TMA and sets
IF bit 2; in the concrete 48-cycle scenario the overflow happens at the
second increment, so TIMA ends at 0xAB (= TMA + 1) with IF bit 2 set. -/
theorem C2_timer_overflow :
    (∀ tma ifr : Nat, timaStep 0xFF tma ifr = (tma, ifr ||| 0x04) ∧
      (ifr ||| 0x04) &&& 0x04 ≠ 0) ∧
    ((memTimer.updateTimer 48).ioRegs 0x05 = 0xAB ∧
      (memTimer.updateTimer 48).ioRegs 0x0F &&& 0x04 ≠ 0) := by
  refine ⟨fun tma ifr => ⟨rfl, or_four_and_four ifr⟩, by decide, by decide⟩

/-- Witness for C2 at TMA = 0xAA, IF = 0. -/
theorem C2_timer_overflow_witness :
    timaStep 0xFF 0xAA 0 = (0xAA, 0x04) ∧
    (memTimer.updateTimer 48).ioRegs 0x05 = 0xAB :=
  ⟨by simpa using (C2_timer_overflow.1 0xAA 0).1, C2_timer_overflow.2.1⟩

/-! ## C5 — joypad reads -/

/-- C5 counterexample: in the reset state (select = 0x30, no buttons), a
read of 0xFF00 returns 0x3F, whose bits 7 and 6 are clear — not the `0xCx`
form the claim states. -/
theorem C5_counterexample :
    Mem.init.read 0xFF00 = 0x3F ∧ 0x3F &&& 0xC0 = 0 ∧ 0x3F >>> 4 ≠ 0xC := by
  decide

set_option maxRecDepth 100000 in
/-- Exhaustive check of `joypadValue` over every selector shape and every
joypad state byte. -/
theorem joypadValue_cases :
    ∀ s : Nat, s < 64 → s &&& 0x30 = s → ∀ st : Nat, st < 256 →
      joypadValue s st &&& 0xC0 = 0 ∧
      joypadValue s st >>> 4 = s >>> 4 ∧
      joypadValue s st &&& 0x0F =
        (if s &&& 0x10 = 0 then st >>> 4 else 0x0F) &&&
        (if s &&& 0x20 = 0 then st &&& 0x0F else 0x0F) := by
  decide

/-- C5 (amended): after writing `v` to 0xFF00, a read of 0xFF00 returns a
value whose bits 7 and 6 are *clear*, whose high nibble is the stored
selector bits `v & 0x30`, and whose low nibble is the AND of the active-low
states of each selected button group (0xF when neither group is selected). -/
theorem C5_joypad_read (m : Mem) (v : Nat) (hst : m.joypadState < 256) :
    ((m.write 0xFF00 v).read 0xFF00) &&& 0xC0 = 0 ∧
    ((m.write 0xFF00 v).read 0xFF00) >>> 4 = ((v % 256) &&& 0x30) >>> 4 ∧
    ((m.write 0xFF00 v).read 0xFF00) &&& 0x0F =
      (if (v % 256) &&& 0x10 = 0 then m.joypadState >>> 4 else 0x0F) &&&
      (if (v % 256) &&& 0x20 = 0 then m.joypadState &&& 0x0F else 0x0F) := by
  have hread : (m.write 0xFF00 v).read 0xFF00 =
      joypadValue ((v % 256) &&& 0x30) m.joypadState := by
    simp [Mem.write, Mem.writeIoReg, Mem.read, Mem.readIoReg, Mem.readJoypad,
      show (0xFF00 : Nat) &&& 0x7F = 0 from by decide]
  have hs1 : ((v % 256) &&& 0x30) &&& 0x10 = (v % 256) &&& 0x10 := by
    rw [Nat.and_assoc, show (0x30 : Nat) &&& 0x10 = 0x10 from by decide]
  have hs2 : ((v % 256) &&& 0x30) &&& 0x20 = (v % 256) &&& 0x20 := by
    rw [Nat.and_assoc, show (0x30 : Nat) &&& 0x20 = 0x20 from by decide]
  have h := joypadValue_cases ((v % 256) &&& 0x30)
    (Nat.lt_of_le_of_lt Nat.and_le_right (by norm_num))
    (by rw [Nat.and_assoc, show (0x30 : Nat) &&& 0x30 = 0x30 from by decide])
    m.joypadState hst
  rw [hread]
  rw [hs1, hs2] at h
  exact h

/-- Witness for C5: write 0x20 (select directions), all buttons released. -/
theorem C5_joypad_read_witness :
    Mem.init.joypadState < 256 ∧
    ((Mem.init.write 0xFF00 0x20).read 0xFF00) &&& 0xC0 = 0 ∧
    ((Mem.init.write 0xFF00 0x20).read 0xFF00) >>> 4 =
      ((0x20 % 256) &&& 0x30) >>> 4 ∧
    ((Mem.init.write 0xFF00 0x20).read 0xFF00) &&& 0x0F =
      (if (0x20 % 256) &&& 0x10 = 0 then Mem.init.joypadState >>> 4 else 0x0F) &&&
      (if (0x20 % 256) &&& 0x20 = 0 then Mem.init.joypadState &&& 0x0F else 0x0F) :=
  ⟨by decide, C5_joypad_read Mem.init 0x20 (by decide)⟩

/-! ## C7 — HDMA cancel -/

/-- C7 counterexample: arm an HBlank HDMA of six 16-byte blocks (write
0x85), run one HBlank block (five blocks = 80 bytes remain), then cancel by
writing 0x00.  The transfer stops, but reading 0x55 yields 0x80: bit 7 is
set, yet the low 7 bits are 0 — neither the remaining block count 5 nor its
length encoding 4, contradicting the claim that the register reflects the
remaining count. -/
theorem C7_counterexample :
    memHdmaArmed.hdmaActive = true ∧
    memHdmaArmed.dmaLength = 80 ∧
    memHdmaCancelled.hdmaActive = false ∧
    memHdmaCancelled.read 0xFF55 = 0x80 ∧
    memHdmaCancelled.dmaLength / 16 = 5 ∧
    0x80 &&& 0x7F ≠ 5 ∧ 0x80 &&& 0x7F ≠ 4 := by
  decide

/-- C7 (amended): writing a value with bit 7 clear to 0xFF55 while an HDMA
is armed stops the transfer (a subsequent HBlank block transfer is a no-op)
and stores the *written value* with bit 7 forced set into 0x55; the
remaining block count is not reflected there. -/
theorem C7_hdma_cancel (m : Mem) (v : Nat) (hc : m.cgbMode = true)
    (ha : m.hdmaActive = true) (hv : (v % 256) &&& 0x80 = 0) :
    (m.write 0xFF55 v).hdmaActive = false ∧
    (m.write 0xFF55 v).read 0xFF55 = ((v % 256) ||| 0x80) ∧
    (m.write 0xFF55 v).doHdmaTransfer = m.write 0xFF55 v := by
  have hw : m.write 0xFF55 v =
      { m with hdmaActive := false,
               ioRegs := upd1 m.ioRegs 0x55 ((v % 256) ||| 0x80) } := by
    simp [Mem.write, Mem.writeIoReg, Mem.startHdma, hc, ha, hv,
      show (0xFF55 : Nat) &&& 0x7F = 0x55 from by decide]
  refine ⟨by rw [hw], ?_, ?_⟩
  · rw [hw]
    simp [Mem.read, Mem.readIoReg, upd1,
      show (0xFF55 : Nat) &&& 0x7F = 0x55 from by decide]
  · rw [hw]
    unfold Mem.doHdmaTransfer
    simp

/-- Witness for C7 at the concrete armed state. -/
theorem C7_hdma_cancel_witness :
    (memHdmaArmed.cgbMode = true ∧ memHdmaArmed.hdmaActive = true ∧
      (0x00 % 256) &&& 0x80 = 0) ∧
    (memHdmaArmed.write 0xFF55 0x00).hdmaActive = false ∧
    (memHdmaArmed.write 0xFF55 0x00).read 0xFF55 = ((0x00 % 256) ||| 0x80) ∧
    (memHdmaArmed.write 0xFF55 0x00).doHdmaTransfer = memHdmaArmed.write 0xFF55 0x00 :=
  ⟨⟨by decide, by decide, by decide⟩,
   C7_hdma_cancel memHdmaArmed 0x00 (by decide) (by decide) (by decide)⟩

/-! ## C8 — MBC1 banking -/

/-- The freshly constructed MBC1 satisfies the latch/bank invariant. -/
theorem mbc1Good_init (rom : Nat → Nat) (romLen ramLen : Nat) :
    MBC1Good (mbc1Init rom romLen ramLen) := by
  refine ⟨rfl, fun _ => ⟨?_, rfl⟩, fun h => ?_⟩
  · simp [mbc1Init, MBC.mbc1High, MBC.mbc1Low,
      show (0 : Nat) <<< 5 ||| 1 = 1 from by decide]
  · simp [mbc1Init, MBC.mbc1Mode] at h

/-- Every `write_rom` preserves the MBC1 latch/bank invariant. -/
theorem mbc1Good_write (m : MBC) (hg : MBC1Good m) (addr v : Nat) :
    MBC1Good (m.writeRom addr v) := by
  obtain ⟨com, var⟩ := m
  obtain ⟨hv, h0, h1⟩ := hg
  cases var with
  | mbc1 mode low high =>
    simp only [MBC.mbc1Mode, MBC.mbc1Low, MBC.mbc1High] at h0 h1
    simp only [MBC.writeRom, MBC.mbc1UpdateBanks]
    split_ifs <;>
      simp_all [MBC1Good, MBC.mbc1Mode, MBC.mbc1Low, MBC.mbc1High]
  | noMbc => simp at hv
  | mbc2 => simp at hv
  | mbc3 rtc lat ls sel => simp at hv
  | mbc5 low high => simp at hv

/-- The invariant after any sequence of `write_rom` calls from reset. -/
theorem mbc1Good_fold (ws : List (Nat × Nat)) (m : MBC) (hg : MBC1Good m) :
    MBC1Good (mbc1Apply m ws) := by
  induction ws generalizing m with
  | nil => exact hg
  | cons w ws ih =>
      simp only [mbc1Apply, List.foldl_cons]
      exact ih _ (mbc1Good_write m hg w.1 w.2)

/-- A `write_rom` in `0x2000..0x3FFF` stores `v & 0x1F` into the low latch,
promoting 0 to 1. -/
theorem mbc1_low_write (m : MBC) (hg : MBC1Good m) (addr v : Nat)
    (ha1 : 0x2000 ≤ addr) (ha2 : addr < 0x4000) :
    (m.writeRom addr v).mbc1Low =
      (if v &&& 0x1F = 0 then 1 else v &&& 0x1F) := by
  obtain ⟨com, var⟩ := m
  obtain ⟨hv, h0, h1⟩ := hg
  cases var with
  | mbc1 mode low high =>
    simp only [MBC.writeRom, MBC.mbc1UpdateBanks]
    rw [if_neg (by omega), if_pos ha2]
    split_ifs <;> rfl
  | noMbc => simp at hv
  | mbc2 => simp at hv
  | mbc3 rtc lat ls sel => simp at hv
  | mbc5 low high => simp at hv

/-- C8: for every sequence of `write_rom` calls on a freshly loaded MBC1, a
write to `0x2000..0x3FFF` sets the 5-bit low latch to `v & 0x1F` with 0
promoted to 1, and the effective banks satisfy
`rom_bank = (upper << 5) | lower, ram_bank = 0` in mode 0 and
`rom_bank = lower, ram_bank = upper` in mode 1. -/
theorem C8_mbc1_banking (rom : Nat → Nat) (romLen ramLen : Nat)
    (ws : List (Nat × Nat)) (addr v : Nat)
    (ha1 : 0x2000 ≤ addr) (ha2 : addr < 0x4000) :
    ((mbc1Apply (mbc1Init rom romLen ramLen) ws).writeRom addr v).mbc1Low =
      (if v &&& 0x1F = 0 then 1 else v &&& 0x1F) ∧
    ((mbc1Apply (mbc1Init rom romLen ramLen) ws).mbc1Mode = 0 →
      (mbc1Apply (mbc1Init rom romLen ramLen) ws).com.romBank =
        ((mbc1Apply (mbc1Init rom romLen ramLen) ws).mbc1High <<< 5) |||
          (mbc1Apply (mbc1Init rom romLen ramLen) ws).mbc1Low ∧
      (mbc1Apply (mbc1Init rom romLen ramLen) ws).com.ramBank = 0) ∧
    ((mbc1Apply (mbc1Init rom romLen ramLen) ws).mbc1Mode = 1 →
      (mbc1Apply (mbc1Init rom romLen ramLen) ws).com.romBank =
        (mbc1Apply (mbc1Init rom romLen ramLen) ws).mbc1Low ∧
      (mbc1Apply (mbc1Init rom romLen ramLen) ws).com.ramBank =
        (mbc1Apply (mbc1Init rom romLen ramLen) ws).mbc1High) := by
  have hg := mbc1Good_fold ws _ (mbc1Good_init rom romLen ramLen)
  exact ⟨mbc1_low_write _ hg addr v ha1 ha2, hg.2.1, hg.2.2⟩

/-- Witness for C8: a 128 KiB image; select upper latch 2, then write 0x13
to the low latch in mode 0, then switch to mode 1. -/
theorem C8_mbc1_banking_witness :
    (0x2000 ≤ 0x2000 ∧ (0x2000 : Nat) < 0x4000) ∧
    (((mbc1Apply (mbc1Init (fun _ => 0) 0x20000 0)
        [(0x4000, 0x02), (0x6000, 0x01)]).writeRom 0x2000 0x13).mbc1Low =
      (if (0x13 : Nat) &&& 0x1F = 0 then 1 else (0x13 : Nat) &&& 0x1F) ∧
     ((mbc1Apply (mbc1Init (fun _ => 0) 0x20000 0)
        [(0x4000, 0x02), (0x6000, 0x01)]).mbc1Mode = 0 →
       (mbc1Apply (mbc1Init (fun _ => 0) 0x20000 0)
          [(0x4000, 0x02), (0x6000, 0x01)]).com.romBank =
         ((mbc1Apply (mbc1Init (fun _ => 0) 0x20000 0)
            [(0x4000, 0x02), (0x6000, 0x01)]).mbc1High <<< 5) |||
           (mbc1Apply (mbc1Init (fun _ => 0) 0x20000 0)
              [(0x4000, 0x02), (0x6000, 0x01)]).mbc1Low ∧
       (mbc1Apply (mbc1Init (fun _ => 0) 0x20000 0)
          [(0x4000, 0x02), (0x6000, 0x01)]).com.ramBank = 0) ∧
     ((mbc1Apply (mbc1Init (fun _ => 0) 0x20000 0)
        [(0x4000, 0x02), (0x6000, 0x01)]).mbc1Mode = 1 →
       (mbc1Apply (mbc1Init (fun _ => 0) 0x20000 0)
          [(0x4000, 0x02), (0x6000, 0x01)]).com.romBank =
         (mbc1Apply (mbc1Init (fun _ => 0) 0x20000 0)
            [(0x4000, 0x02), (0x6000, 0x01)]).mbc1Low ∧
       (mbc1Apply (mbc1Init (fun _ => 0) 0x20000 0)
          [(0x4000, 0x02), (0x6000, 0x01)]).com.ramBank =
         (mbc1Apply (mbc1Init (fun _ => 0) 0x20000 0)
            [(0x4000, 0x02), (0x6000, 0x01)]).mbc1High)) :=
  ⟨⟨by norm_num, by norm_num⟩,
   C8_mbc1_banking (fun _ => 0) 0x20000 0 [(0x4000, 0x02), (0x6000, 0x01)]
     0x2000 0x13 (by norm_num) (by norm_num)⟩

/-! ## Interrupt dispatch inside `CPU.step` (shared by C1 and C3) -/

/-- A pending mask whose five low bits all test clear is zero. -/
theorem pending_bits_zero (p : Nat) (hlt : p < 32)
    (h1 : p &&& 1 = 0) (h2 : p &&& 2 = 0) (h3 : p &&& 4 = 0)
    (h4 : p &&& 8 = 0) (h5 : p &&& 16 = 0) : p = 0 := by
  interval_cases p <;> revert h1 h2 h3 h4 h5 <;> decide

/-- `_handle_interrupts` with a nonzero pending mask: the priority loop
services the lowest pending bit and reports 20 cycles. -/
theorem handleInterrupts_run (m : Machine)
    (hp : m.mem.read 0xFFFF &&& m.mem.read 0xFF0F &&& 0x1F ≠ 0) :
    handleInterrupts m =
      serviceInt { m with cpu := { m.cpu with halted := false } }
        (m.mem.read 0xFF0F)
        (intBit (m.mem.read 0xFFFF &&& m.mem.read 0xFF0F &&& 0x1F))
        (intVector (m.mem.read 0xFFFF &&& m.mem.read 0xFF0F &&& 0x1F)) := by
  have hplt : m.mem.read 0xFFFF &&& m.mem.read 0xFF0F &&& 0x1F < 32 :=
    Nat.lt_of_le_of_lt Nat.and_le_right (by norm_num)
  unfold handleInterrupts
  simp only [Machine.readByte]
  rw [if_neg hp]
  unfold intBit intVector
  by_cases b0 : m.mem.read 0xFFFF &&& m.mem.read 0xFF0F &&& 0x1F &&& 1 ≠ 0
  · simp only [if_pos b0]
  · simp only [if_neg b0]
    by_cases b1 : m.mem.read 0xFFFF &&& m.mem.read 0xFF0F &&& 0x1F &&& 2 ≠ 0
    · simp only [if_pos b1]
    · simp only [if_neg b1]
      by_cases b2 : m.mem.read 0xFFFF &&& m.mem.read 0xFF0F &&& 0x1F &&& 4 ≠ 0
      · simp only [if_pos b2]
      · simp only [if_neg b2]
        by_cases b3 : m.mem.read 0xFFFF &&& m.mem.read 0xFF0F &&& 0x1F &&& 8 ≠ 0
        · simp only [if_pos b3]
        · simp only [if_neg b3]
          by_cases b4 : m.mem.read 0xFFFF &&& m.mem.read 0xFF0F &&& 0x1F &&& 16 ≠ 0
          · simp only [if_pos b4]
          · exact absurd
              (pending_bits_zero _ hplt (not_ne_iff.mp b0) (not_ne_iff.mp b1)
                (not_ne_iff.mp b2) (not_ne_iff.mp b3) (not_ne_iff.mp b4)) hp

/-- If IME is set at entry (directly or via a scheduled EI promotion) and an
enabled interrupt is pending, `CPU.step` performs exactly the interrupt
dispatch — IF bit cleared, IME cleared, PC pushed, jump to the vector — and
returns 20 cycles without executing any instruction. -/
theorem step_dispatch (m : Machine)
    (h : m.cpu.ime = true ∨ m.cpu.imeScheduled = true)
    (hp : m.mem.read 0xFFFF &&& m.mem.read 0xFF0F &&& 0x1F ≠ 0) :
    CPU.step m = .ok (dispatched m, 20) := by
  unfold CPU.step
  by_cases hs : m.cpu.imeScheduled = true
  · simp only [hs, if_true]
    rw [handleInterrupts_run _ (by simpa using hp)]
    simp only [gt_iff_lt, Nat.zero_lt_succ, if_true]
    unfold dispatched preDispatch serviceInt
    simp [Machine.writeByte, Machine.pushWord, Machine.writeWord]
  · have him : m.cpu.ime = true := by tauto
    simp only [hs, him, if_false, if_true]
    rw [handleInterrupts_run _ (by simpa using hp)]
    simp only [gt_iff_lt, Nat.zero_lt_succ, if_true]
    unfold dispatched preDispatch serviceInt
    simp only [Bool.not_eq_true] at hs
    simp [Machine.writeByte, Machine.pushWord, Machine.writeWord, hs]

/-! ## C1 — interrupt dispatch -/

/-- C1: with IME set and `IE & IF & 0x1F` nonzero at entry, `CPU.step`
clears the lowest-numbered pending IF bit, clears IME, pushes PC
(decrementing SP by 2), jumps to that bit's vector, and returns 20 cycles.
The result is exactly `dispatched m`, whose projections spell this out. -/
theorem C1_interrupt_dispatch (m : Machine) (h : m.cpu.ime = true)
    (hp : m.mem.read 0xFFFF &&& m.mem.read 0xFF0F &&& 0x1F ≠ 0) :
    CPU.step m = .ok (dispatched m, 20) ∧
    (dispatched m).cpu.ime = false ∧
    (dispatched m).cpu.imeScheduled = false ∧
    (dispatched m).cpu.sp = wrap16i ((m.cpu.sp : Int) - 2) ∧
    (dispatched m).cpu.pc =
      intVector (m.mem.read 0xFFFF &&& m.mem.read 0xFF0F &&& 0x1F) ∧
    (dispatched m).mem =
      (((preDispatch m).writeByte 0xFF0F
          (pyAndNot (m.mem.read 0xFF0F)
            (1 <<< intBit (m.mem.read 0xFFFF &&& m.mem.read 0xFF0F &&& 0x1F)))).pushWord
        m.cpu.pc).mem :=
  ⟨step_dispatch m (Or.inl h) hp, rfl, rfl, rfl, rfl, rfl⟩

/-- Witness for C1 at the spec's scenario (PC = 0x0150, IME = 1, IE = 0x01,
IF = 0x01, SP = 0xFFFE), together with the claimed concrete readbacks:
IME cleared, IF bit 0 cleared, SP = 0xFFFC, [0xFFFC] = 0x50,
[0xFFFD] = 0x01, PC = 0x0040, 20 cycles. -/
theorem C1_interrupt_dispatch_witness :
    (machIntr.cpu.ime = true ∧
      machIntr.mem.read 0xFFFF &&& machIntr.mem.read 0xFF0F &&& 0x1F ≠ 0) ∧
    CPU.step machIntr = .ok (dispatched machIntr, 20) ∧
    okCycles (CPU.step machIntr) = 20 ∧
    (okMachine (CPU.step machIntr)).cpu.ime = false ∧
    (okMachine (CPU.step machIntr)).mem.read 0xFF0F = 0x00 ∧
    (okMachine (CPU.step machIntr)).cpu.sp = 0xFFFC ∧
    (okMachine (CPU.step machIntr)).mem.read 0xFFFC = 0x50 ∧
    (okMachine (CPU.step machIntr)).mem.read 0xFFFD = 0x01 ∧
    (okMachine (CPU.step machIntr)).cpu.pc = 0x0040 :=
  ⟨⟨by decide, by decide⟩,
   (C1_interrupt_dispatch machIntr (by decide) (by decide)).1,
   by decide, by decide, by decide, by decide, by decide, by decide, by decide⟩

/-! ## C3 — EI/DI timing -/

/-- C3 counterexample: a machine that has just executed EI
(`ime_scheduled` set, IME clear) with IE = IF = 0x01 and `INC B` as the next
instruction.  The very next `CPU.step` consumes 20 cycles and lands on the
VBlank vector with B unchanged: the interrupt is dispatched *before* the
instruction after EI executes, contradicting the claim. -/
theorem C3_counterexample :
    machEi.cpu.imeScheduled = true ∧
    machEi.mem.read machEi.cpu.pc = 0x04 ∧
    okCycles (CPU.step machEi) = 20 ∧
    (okMachine (CPU.step machEi)).cpu.pc = 0x40 ∧
    (okMachine (CPU.step machEi)).cpu.b = machEi.cpu.b := by
  decide

/-- C3 (amended): EI only schedules IME (IME itself stays clear through EI's
own step); the *following* step promotes IME at its start, before any fetch,
so with an enabled interrupt pending, that step dispatches the interrupt
instead of first executing the next instruction.  DI clears IME immediately
within its own step. -/
theorem C3_ei_di_timing :
    (∀ m : Machine, m.cpu.ime = false → m.cpu.imeScheduled = false →
      m.cpu.halted = false → m.cpu.stopped = false →
      m.mem.read m.cpu.pc = 0xFB →
      CPU.step m = .ok ({ m with cpu := { m.cpu with
          pc := (m.cpu.pc + 1) % 0x10000, imeScheduled := true,
          cycles := 4, totalCycles := m.cpu.totalCycles + 4 } }, 4)) ∧
    (∀ m : Machine, m.cpu.imeScheduled = true →
      m.mem.read 0xFFFF &&& m.mem.read 0xFF0F &&& 0x1F ≠ 0 →
      CPU.step m = .ok (dispatched m, 20) ∧
      (dispatched m).cpu.pc =
        intVector (m.mem.read 0xFFFF &&& m.mem.read 0xFF0F &&& 0x1F)) ∧
    (∀ m : Machine, m.cpu.ime = true → m.cpu.imeScheduled = false →
      m.mem.read 0xFFFF &&& m.mem.read 0xFF0F &&& 0x1F = 0 →
      m.cpu.halted = false → m.cpu.stopped = false →
      m.mem.read m.cpu.pc = 0xF3 →
      CPU.step m = .ok ({ m with cpu := { m.cpu with
          pc := (m.cpu.pc + 1) % 0x10000, ime := false,
          cycles := 4, totalCycles := m.cpu.totalCycles + 4 } }, 4)) := by
  refine ⟨?_, ?_, ?_⟩
  · intro m hi hs hh hst hop
    unfold CPU.step stepHalt stepRest
    simp only [hi, hs, hh, hst, Machine.fetchByte, Machine.readByte]
    simp [hop, execOpcode, execHi, Insn.ei, Machine.withC]
  · intro m hs hp
    exact ⟨step_dispatch m (Or.inr hs) hp, rfl⟩
  · intro m hi hs hz hh hst hop
    unfold CPU.step stepHalt stepRest handleInterrupts
    simp only [hi, hs, hh, hst, Machine.fetchByte, Machine.readByte, hz]
    simp [hz, hop, execOpcode, execHi, Insn.di, Machine.withC]

/-- Witness for C3: the EI part at `machEiOp`, the dispatch part at
`machEi`, and the DI part at `machDi`. -/
theorem C3_ei_di_timing_witness :
    CPU.step machEiOp = .ok ({ machEiOp with cpu := { machEiOp.cpu with
        pc := (machEiOp.cpu.pc + 1) % 0x10000, imeScheduled := true,
        cycles := 4, totalCycles := machEiOp.cpu.totalCycles + 4 } }, 4) ∧
    CPU.step machEi = .ok (dispatched machEi, 20) ∧
    CPU.step machDi = .ok ({ machDi with cpu := { machDi.cpu with
        pc := (machDi.cpu.pc + 1) % 0x10000, ime := false,
        cycles := 4, totalCycles := machDi.cpu.totalCycles + 4 } }, 4) :=
  ⟨C3_ei_di_timing.1 machEiOp (by decide) (by decide) (by decide) (by decide)
     (by decide),
   (C3_ei_di_timing.2.1 machEi (by decide) (by decide)).1,
   C3_ei_di_timing.2.2 machDi (by decide) (by decide) (by decide) (by decide)
     (by decide) (by decide)⟩

/-! ## C4 — invalid opcodes -/

/-- C4 counterexample: executing the invalid opcode 0xD3 raises
`RuntimeError` out of `CPU.step`; it is not treated as a 4-cycle NOP. -/
theorem C4_counterexample :
    stepExn (CPU.step machInvalid) = some PyExn.runtimeError := by
  decide

/-- C4 (amended): for every truly invalid opcode byte, the main table entry
is `None` and `CPU.step` raises `RuntimeError` instead of treating the byte
as a NOP. -/
theorem C4_invalid_opcode (m : Machine) (op : Nat) (hop : op ∈ invalidOps)
    (hi : m.cpu.ime = false) (hs : m.cpu.imeScheduled = false)
    (hh : m.cpu.halted = false) (hst : m.cpu.stopped = false)
    (hm : m.mem.read m.cpu.pc = op) :
    CPU.step m = .error .runtimeError := by
  fin_cases hop <;>
    · unfold CPU.step stepHalt stepRest
      simp [hi, hs, hh, hst, Machine.fetchByte, Machine.readByte, hm,
        execOpcode, execHi]

/-- Witness for C4 at opcode 0xD3. -/
theorem C4_invalid_opcode_witness :
    ((0xD3 : Nat) ∈ invalidOps ∧ machInvalid.mem.read machInvalid.cpu.pc = 0xD3) ∧
    CPU.step machInvalid = .error .runtimeError :=
  ⟨⟨by decide, by decide⟩,
   C4_invalid_opcode machInvalid 0xD3 (by decide) (by decide) (by decide)
     (by decide) (by decide) (by decide)⟩

/-! ## C6 — CB-prefixed SET b, r -/

/-- C6: executing `SET 0, A` (bytes 0xCB 0xC7) raises `TypeError` out of
`CPU.step` — the CB table wires `SET b, r` to the two-argument register
setter `_set_r8(b, r)`, which evaluates `r & 0xFF` on the register-name
string — instead of setting bit 0 of A and consuming 8 cycles. -/
theorem C6_set_r8_crash :
    stepExn (CPU.step machSetBit) = some PyExn.typeError ∧
    okCycles (CPU.step machSetBit) = 0 := by
  decide

/-! ## C9 — F's low nibble

Every instruction either leaves F alone or writes it through `setFlag`
(which ends in `&= 0xF0`) or the AF setter / `POP AF` (which mask with
`0xF0`), so the invariant `F & 0x0F = 0` survives every step.  The lemmas
below record, per primitive and per handler, how F moves. -/

section FlagLemmas

open Insn Machine

@[simp] theorem withC_f (n : Nat) (m : Machine) :
    (withC n m).cpu.f = m.cpu.f := rfl

@[simp] theorem writeByte_f (m : Machine) (a v : Nat) :
    (m.writeByte a v).cpu.f = m.cpu.f := rfl

@[simp] theorem writeWord_f (m : Machine) (a v : Nat) :
    (m.writeWord a v).cpu.f = m.cpu.f := rfl

@[simp] theorem pushWord_f (m : Machine) (v : Nat) :
    (m.pushWord v).cpu.f = m.cpu.f := rfl

@[simp] theorem popWord_f (m : Machine) :
    (m.popWord).2.cpu.f = m.cpu.f := rfl

@[simp] theorem fetchByte_f (m : Machine) :
    (m.fetchByte).2.cpu.f = m.cpu.f := rfl

@[simp] theorem fetchWord_f (m : Machine) :
    (m.fetchWord).2.cpu.f = m.cpu.f := rfl

@[simp] theorem setR8_f (m : Machine) (r : R8) (v : Nat) :
    (m.setR8 r v).cpu.f = m.cpu.f := by
  cases r <;> rfl

@[simp] theorem setR16_f (m : Machine) (r : R16) (v : Nat) :
    (m.setR16 r v).cpu.f = m.cpu.f := by
  cases r <;> rfl

@[simp] theorem setHl_f (m : Machine) (v : Nat) :
    (m.setHl v).cpu.f = m.cpu.f := rfl

@[simp] theorem maskF0_0F (x : Nat) : x &&& 0xF0 &&& 0x0F = 0 :=
  maskF0_low x

/-! F-preserving handlers. -/

@[simp] theorem f_nop (m : Machine) : (nop m).cpu.f = m.cpu.f := rfl
@[simp] theorem f_halt (m : Machine) : (halt m).cpu.f = m.cpu.f := rfl
@[simp] theorem f_stop (m : Machine) : (stop m).cpu.f = m.cpu.f := by
  unfold Insn.stop
  dsimp only
  split_ifs <;> rfl
@[simp] theorem f_ld_r16_nn (r : R16) (m : Machine) :
    (ld_r16_nn r m).cpu.f = m.cpu.f := by
  simp [ld_r16_nn]
@[simp] theorem f_ld_sp_nn (m : Machine) : (ld_sp_nn m).cpu.f = m.cpu.f := rfl
@[simp] theorem f_ld_nn_sp (m : Machine) : (ld_nn_sp m).cpu.f = m.cpu.f := rfl
@[simp] theorem f_ld_sp_hl (m : Machine) : (ld_sp_hl m).cpu.f = m.cpu.f := rfl
@[simp] theorem f_ld_r8_n (r : R8) (m : Machine) :
    (ld_r8_n r m).cpu.f = m.cpu.f := by
  simp [ld_r8_n]
@[simp] theorem f_ld_hl_n (m : Machine) : (ld_hl_n m).cpu.f = m.cpu.f := rfl
@[simp] theorem f_ld_r8_r8 (d s : R8) (m : Machine) :
    (ld_r8_r8 d s m).cpu.f = m.cpu.f := by
  simp [ld_r8_r8]
@[simp] theorem f_ld_r8_hl (d : R8) (m : Machine) :
    (ld_r8_hl d m).cpu.f = m.cpu.f := by
  simp [ld_r8_hl]
@[simp] theorem f_ld_hl_r8 (s : R8) (m : Machine) :
    (ld_hl_r8 s m).cpu.f = m.cpu.f := rfl
@[simp] theorem f_ld_r16_a (r : R16) (m : Machine) :
    (ld_r16_a r m).cpu.f = m.cpu.f := rfl
@[simp] theorem f_ld_a_r16 (r : R16) (m : Machine) :
    (ld_a_r16 r m).cpu.f = m.cpu.f := rfl
@[simp] theorem f_ld_hli_a (m : Machine) : (ld_hli_a m).cpu.f = m.cpu.f := rfl
@[simp] theorem f_ld_hld_a (m : Machine) : (ld_hld_a m).cpu.f = m.cpu.f := rfl
@[simp] theorem f_ld_a_hli (m : Machine) : (ld_a_hli m).cpu.f = m.cpu.f := rfl
@[simp] theorem f_ld_a_hld (m : Machine) : (ld_a_hld m).cpu.f = m.cpu.f := rfl
@[simp] theorem f_ldh_n_a (m : Machine) : (ldh_n_a m).cpu.f = m.cpu.f := rfl
@[simp] theorem f_ldh_a_n (m : Machine) : (ldh_a_n m).cpu.f = m.cpu.f := rfl
@[simp] theorem f_ldh_c_a (m : Machine) : (ldh_c_a m).cpu.f = m.cpu.f := rfl
@[simp] theorem f_ldh_a_c (m : Machine) : (ldh_a_c m).cpu.f = m.cpu.f := rfl
@[simp] theorem f_ld_nn_a (m : Machine) : (ld_nn_a m).cpu.f = m.cpu.f := rfl
@[simp] theorem f_ld_a_nn (m : Machine) : (ld_a_nn m).cpu.f = m.cpu.f := rfl
@[simp] theorem f_inc_r16 (r : R16) (m : Machine) :
    (inc_r16 r m).cpu.f = m.cpu.f := by
  simp [inc_r16]
@[simp] theorem f_inc_sp (m : Machine) : (inc_sp m).cpu.f = m.cpu.f := rfl
@[simp] theorem f_dec_r16 (r : R16) (m : Machine) :
    (dec_r16 r m).cpu.f = m.cpu.f := by
  simp [dec_r16]
@[simp] theorem f_dec_sp (m : Machine) : (dec_sp m).cpu.f = m.cpu.f := rfl
@[simp] theorem f_jp_nn (m : Machine) : (jp_nn m).cpu.f = m.cpu.f := rfl
@[simp] theorem f_jp_cc_nn (c : Bool) (m : Machine) :
    (jp_cc_nn c m).cpu.f = m.cpu.f := by
  cases c <;> rfl
@[simp] theorem f_jp_hl (m : Machine) : (jp_hl m).cpu.f = m.cpu.f := rfl
@[simp] theorem f_jr (m : Machine) : (jr m).cpu.f = m.cpu.f := rfl
@[simp] theorem f_jr_cc (c : Bool) (m : Machine) :
    (jr_cc c m).cpu.f = m.cpu.f := by
  cases c <;> rfl
@[simp] theorem f_call_nn (m : Machine) : (call_nn m).cpu.f = m.cpu.f := rfl
@[simp] theorem f_call_cc_nn (c : Bool) (m : Machine) :
    (call_cc_nn c m).cpu.f = m.cpu.f := by
  cases c <;> rfl
@[simp] theorem f_ret (m : Machine) : (ret m).cpu.f = m.cpu.f := rfl
@[simp] theorem f_ret_cc (c : Bool) (m : Machine) :
    (ret_cc c m).cpu.f = m.cpu.f := by
  cases c <;> rfl
@[simp] theorem f_reti (m : Machine) : (reti m).cpu.f = m.cpu.f := rfl
@[simp] theorem f_rst (a : Nat) (m : Machine) : (rst a m).cpu.f = m.cpu.f := rfl
@[simp] theorem f_push_r16 (r : R16) (m : Machine) :
    (push_r16 r m).cpu.f = m.cpu.f := rfl
@[simp] theorem f_push_af (m : Machine) : (push_af m).cpu.f = m.cpu.f := rfl
@[simp] theorem f_pop_r16 (r : R16) (m : Machine) :
    (pop_r16 r m).cpu.f = m.cpu.f := by
  simp [pop_r16]
@[simp] theorem f_di (m : Machine) : (di m).cpu.f = m.cpu.f := rfl
@[simp] theorem f_ei (m : Machine) : (ei m).cpu.f = m.cpu.f := rfl
@[simp] theorem f_res_r8 (bi : Nat) (r : R8) (m : Machine) :
    (res_r8 bi r m).cpu.f = m.cpu.f := by
  simp [res_r8]
@[simp] theorem f_res_hl (bi : Nat) (m : Machine) :
    (res_hl bi m).cpu.f = m.cpu.f := rfl
@[simp] theorem f_set_hl (bi : Nat) (m : Machine) :
    (set_hl bi m).cpu.f = m.cpu.f := rfl

/-! Flag-writing handlers: the result's low nibble is zero outright. -/

@[simp] theorem fz_add_hl_r16 (r : R16) (m : Machine) :
    (add_hl_r16 r m).cpu.f &&& 0x0F = 0 := by
  simp [add_hl_r16]
@[simp] theorem fz_add_hl_sp (m : Machine) :
    (add_hl_sp m).cpu.f &&& 0x0F = 0 := by
  simp [add_hl_sp]
@[simp] theorem fz_add_sp_n (m : Machine) :
    (add_sp_n m).cpu.f &&& 0x0F = 0 := by
  simp [add_sp_n]
@[simp] theorem fz_ld_hl_sp_n (m : Machine) :
    (ld_hl_sp_n m).cpu.f &&& 0x0F = 0 := by
  simp [ld_hl_sp_n]
@[simp] theorem fz_inc_r8 (r : R8) (m : Machine) :
    (inc_r8 r m).cpu.f &&& 0x0F = 0 := by
  simp [inc_r8]
@[simp] theorem fz_inc_hl_ind (m : Machine) :
    (inc_hl_ind m).cpu.f &&& 0x0F = 0 := by
  simp [inc_hl_ind]
@[simp] theorem fz_dec_r8 (r : R8) (m : Machine) :
    (dec_r8 r m).cpu.f &&& 0x0F = 0 := by
  simp [dec_r8]
@[simp] theorem fz_dec_hl_ind (m : Machine) :
    (dec_hl_ind m).cpu.f &&& 0x0F = 0 := by
  simp [dec_hl_ind]
@[simp] theorem fz_aluApply (i v : Nat) (m : Machine) :
    (aluApply i v m).cpu.f &&& 0x0F = 0 := by
  unfold aluApply
  split_ifs <;>
    simp [add_a, adc_a, sub_a, sbc_a, and_a, xor_a, or_a, cp_a]
@[simp] theorem fz_alu_r8 (i : Nat) (r : R8) (m : Machine) :
    (alu_r8 i r m).cpu.f &&& 0x0F = 0 := by
  simp [alu_r8]
@[simp] theorem fz_alu_hl (i : Nat) (m : Machine) :
    (alu_hl i m).cpu.f &&& 0x0F = 0 := by
  simp [alu_hl]
@[simp] theorem fz_alu_n (i : Nat) (m : Machine) :
    (alu_n i m).cpu.f &&& 0x0F = 0 := by
  simp [alu_n]
@[simp] theorem fz_rlca (m : Machine) : (rlca m).cpu.f &&& 0x0F = 0 := by
  simp [rlca]
@[simp] theorem fz_rrca (m : Machine) : (rrca m).cpu.f &&& 0x0F = 0 := by
  simp [rrca]
@[simp] theorem fz_rla (m : Machine) : (rla m).cpu.f &&& 0x0F = 0 := by
  simp [rla]
@[simp] theorem fz_rra (m : Machine) : (rra m).cpu.f &&& 0x0F = 0 := by
  simp [rra]
@[simp] theorem fz_shiftApply (i v : Nat) (m : Machine) :
    (shiftApply i v m).1.cpu.f &&& 0x0F = 0 := by
  unfold shiftApply
  split_ifs <;>
    simp [rlcOp, rrcOp, rlOp, rrOp, slaOp, sraOp, swapOp, srlOp]
@[simp] theorem fz_cb_r8 (i : Nat) (r : R8) (m : Machine) :
    (cb_r8 i r m).cpu.f &&& 0x0F = 0 := by
  simp [cb_r8]
@[simp] theorem fz_cb_hl (i : Nat) (m : Machine) :
    (cb_hl i m).cpu.f &&& 0x0F = 0 := by
  simp [cb_hl]
@[simp] theorem fz_bit_r8 (bi : Nat) (r : R8) (m : Machine) :
    (bit_r8 bi r m).cpu.f &&& 0x0F = 0 := by
  simp [bit_r8]
@[simp] theorem fz_bit_hl (bi : Nat) (m : Machine) :
    (bit_hl bi m).cpu.f &&& 0x0F = 0 := by
  simp [bit_hl]
@[simp] theorem fz_daa (m : Machine) : (daa m).cpu.f &&& 0x0F = 0 := by
  simp [daa]
@[simp] theorem fz_cpl (m : Machine) : (cpl m).cpu.f &&& 0x0F = 0 := by
  simp [cpl]
@[simp] theorem fz_scf (m : Machine) : (scf m).cpu.f &&& 0x0F = 0 := by
  simp [scf]
@[simp] theorem fz_ccf (m : Machine) : (ccf m).cpu.f &&& 0x0F = 0 := by
  simp [ccf]
@[simp] theorem fz_pop_af (m : Machine) : (pop_af m).cpu.f &&& 0x0F = 0 := by
  simp [pop_af]

/-! Dispatch-level invariance. -/

@[simp] theorem fokr_ok (m2 : Machine) :
    fokr (.ok m2) = (m2.cpu.f &&& 0x0F = 0) := rfl

@[simp] theorem fokr_error (e : PyExn) : fokr (.error e) = True := rfl

/-- Transfer the invariant along an F-preservation equation. -/
theorem fok_of_feq {m2 : Machine} {fv : Nat} (e : m2.cpu.f = fv)
    (h : fv &&& 0x0F = 0) : m2.cpu.f &&& 0x0F = 0 := by
  rw [e]
  exact h

theorem fok_exec0x (op : Nat) (m : Machine) (hb : op < 0x40)
    (h : m.cpu.f &&& 0x0F = 0) : fokr (exec0x op m) := by
  interval_cases op
  · exact fok_of_feq (f_nop m) h  -- 0x00
  · exact fok_of_feq (f_ld_r16_nn _ m) h  -- 0x01
  · exact fok_of_feq (f_ld_r16_a _ m) h  -- 0x02
  · exact fok_of_feq (f_inc_r16 _ m) h  -- 0x03
  · exact fz_inc_r8 _ m  -- 0x04
  · exact fz_dec_r8 _ m  -- 0x05
  · exact fok_of_feq (f_ld_r8_n _ m) h  -- 0x06
  · exact fz_rlca m  -- 0x07
  · exact fok_of_feq (f_ld_nn_sp m) h  -- 0x08
  · exact fz_add_hl_r16 _ m  -- 0x09
  · exact fok_of_feq (f_ld_a_r16 _ m) h  -- 0x0A
  · exact fok_of_feq (f_dec_r16 _ m) h  -- 0x0B
  · exact fz_inc_r8 _ m  -- 0x0C
  · exact fz_dec_r8 _ m  -- 0x0D
  · exact fok_of_feq (f_ld_r8_n _ m) h  -- 0x0E
  · exact fz_rrca m  -- 0x0F
  · exact fok_of_feq (f_stop m) h  -- 0x10
  · exact fok_of_feq (f_ld_r16_nn _ m) h  -- 0x11
  · exact fok_of_feq (f_ld_r16_a _ m) h  -- 0x12
  · exact fok_of_feq (f_inc_r16 _ m) h  -- 0x13
  · exact fz_inc_r8 _ m  -- 0x14
  · exact fz_dec_r8 _ m  -- 0x15
  · exact fok_of_feq (f_ld_r8_n _ m) h  -- 0x16
  · exact fz_rla m  -- 0x17
  · exact fok_of_feq (f_jr m) h  -- 0x18
  · exact fz_add_hl_r16 _ m  -- 0x19
  · exact fok_of_feq (f_ld_a_r16 _ m) h  -- 0x1A
  · exact fok_of_feq (f_dec_r16 _ m) h  -- 0x1B
  · exact fz_inc_r8 _ m  -- 0x1C
  · exact fz_dec_r8 _ m  -- 0x1D
  · exact fok_of_feq (f_ld_r8_n _ m) h  -- 0x1E
  · exact fz_rra m  -- 0x1F
  · exact fok_of_feq (f_jr_cc _ m) h  -- 0x20
  · exact fok_of_feq (f_ld_r16_nn _ m) h  -- 0x21
  · exact fok_of_feq (f_ld_hli_a m) h  -- 0x22
  · exact fok_of_feq (f_inc_r16 _ m) h  -- 0x23
  · exact fz_inc_r8 _ m  -- 0x24
  · exact fz_dec_r8 _ m  -- 0x25
  · exact fok_of_feq (f_ld_r8_n _ m) h  -- 0x26
  · exact fz_daa m  -- 0x27
  · exact fok_of_feq (f_jr_cc _ m) h  -- 0x28
  · exact fz_add_hl_r16 _ m  -- 0x29
  · exact fok_of_feq (f_ld_a_hli m) h  -- 0x2A
  · exact fok_of_feq (f_dec_r16 _ m) h  -- 0x2B
  · exact fz_inc_r8 _ m  -- 0x2C
  · exact fz_dec_r8 _ m  -- 0x2D
  · exact fok_of_feq (f_ld_r8_n _ m) h  -- 0x2E
  · exact fz_cpl m  -- 0x2F
  · exact fok_of_feq (f_jr_cc _ m) h  -- 0x30
  · exact fok_of_feq (f_ld_sp_nn m) h  -- 0x31
  · exact fok_of_feq (f_ld_hld_a m) h  -- 0x32
  · exact fok_of_feq (f_inc_sp m) h  -- 0x33
  · exact fz_inc_hl_ind m  -- 0x34
  · exact fz_dec_hl_ind m  -- 0x35
  · exact fok_of_feq (f_ld_hl_n m) h  -- 0x36
  · exact fz_scf m  -- 0x37
  · exact fok_of_feq (f_jr_cc _ m) h  -- 0x38
  · exact fz_add_hl_sp m  -- 0x39
  · exact fok_of_feq (f_ld_a_hld m) h  -- 0x3A
  · exact fok_of_feq (f_dec_sp m) h  -- 0x3B
  · exact fz_inc_r8 _ m  -- 0x3C
  · exact fz_dec_r8 _ m  -- 0x3D
  · exact fok_of_feq (f_ld_r8_n _ m) h  -- 0x3E
  · exact fz_ccf m  -- 0x3F

theorem fok_execHi (op : Nat) (m : Machine) (h : m.cpu.f &&& 0x0F = 0) :
    fokr (execHi op m) := by
  rcases Nat.lt_or_ge op 0xC0 with hb | hb
  · unfold execHi
    repeat rw [if_neg (by omega)]
    trivial
  rcases Nat.lt_or_ge op 0x100 with hb2 | hb2
  swap
  · unfold execHi
    repeat rw [if_neg (by omega)]
    trivial
  interval_cases op
  · exact fok_of_feq (f_ret_cc _ m) h  -- 0xC0
  · exact fok_of_feq (f_pop_r16 _ m) h  -- 0xC1
  · exact fok_of_feq (f_jp_cc_nn _ m) h  -- 0xC2
  · exact fok_of_feq (f_jp_nn m) h  -- 0xC3
  · exact fok_of_feq (f_call_cc_nn _ m) h  -- 0xC4
  · exact fok_of_feq (f_push_r16 _ m) h  -- 0xC5
  · exact fz_alu_n _ m  -- 0xC6
  · exact fok_of_feq (f_rst _ m) h  -- 0xC7
  · exact fok_of_feq (f_ret_cc _ m) h  -- 0xC8
  · exact fok_of_feq (f_ret m) h  -- 0xC9
  · exact fok_of_feq (f_jp_cc_nn _ m) h  -- 0xCA
  · trivial  -- 0xCB invalid
  · exact fok_of_feq (f_call_cc_nn _ m) h  -- 0xCC
  · exact fok_of_feq (f_call_nn m) h  -- 0xCD
  · exact fz_alu_n _ m  -- 0xCE
  · exact fok_of_feq (f_rst _ m) h  -- 0xCF
  · exact fok_of_feq (f_ret_cc _ m) h  -- 0xD0
  · exact fok_of_feq (f_pop_r16 _ m) h  -- 0xD1
  · exact fok_of_feq (f_jp_cc_nn _ m) h  -- 0xD2
  · trivial  -- 0xD3 invalid
  · exact fok_of_feq (f_call_cc_nn _ m) h  -- 0xD4
  · exact fok_of_feq (f_push_r16 _ m) h  -- 0xD5
  · exact fz_alu_n _ m  -- 0xD6
  · exact fok_of_feq (f_rst _ m) h  -- 0xD7
  · exact fok_of_feq (f_ret_cc _ m) h  -- 0xD8
  · exact fok_of_feq (f_reti m) h  -- 0xD9
  · exact fok_of_feq (f_jp_cc_nn _ m) h  -- 0xDA
  · trivial  -- 0xDB invalid
  · exact fok_of_feq (f_call_cc_nn _ m) h  -- 0xDC
  · trivial  -- 0xDD invalid
  · exact fz_alu_n _ m  -- 0xDE
  · exact fok_of_feq (f_rst _ m) h  -- 0xDF
  · exact fok_of_feq (f_ldh_n_a m) h  -- 0xE0
  · exact fok_of_feq (f_pop_r16 _ m) h  -- 0xE1
  · exact fok_of_feq (f_ldh_c_a m) h  -- 0xE2
  · trivial  -- 0xE3 invalid
  · trivial  -- 0xE4 invalid
  · exact fok_of_feq (f_push_r16 _ m) h  -- 0xE5
  · exact fz_alu_n _ m  -- 0xE6
  · exact fok_of_feq (f_rst _ m) h  -- 0xE7
  · exact fz_add_sp_n m  -- 0xE8
  · exact fok_of_feq (f_jp_hl m) h  -- 0xE9
  · exact fok_of_feq (f_ld_nn_a m) h  -- 0xEA
  · trivial  -- 0xEB invalid
  · trivial  -- 0xEC invalid
  · trivial  -- 0xED invalid
  · exact fz_alu_n _ m  -- 0xEE
  · exact fok_of_feq (f_rst _ m) h  -- 0xEF
  · exact fok_of_feq (f_ldh_a_n m) h  -- 0xF0
  · exact fz_pop_af m  -- 0xF1
  · exact fok_of_feq (f_ldh_a_c m) h  -- 0xF2
  · exact fok_of_feq (f_di m) h  -- 0xF3
  · trivial  -- 0xF4 invalid
  · exact fok_of_feq (f_push_af m) h  -- 0xF5
  · exact fz_alu_n _ m  -- 0xF6
  · exact fok_of_feq (f_rst _ m) h  -- 0xF7
  · exact fz_ld_hl_sp_n m  -- 0xF8
  · exact fok_of_feq (f_ld_sp_hl m) h  -- 0xF9
  · exact fok_of_feq (f_ld_a_nn m) h  -- 0xFA
  · exact fok_of_feq (f_ei m) h  -- 0xFB
  · trivial  -- 0xFC invalid
  · trivial  -- 0xFD invalid
  · exact fz_alu_n _ m  -- 0xFE
  · exact fok_of_feq (f_rst _ m) h  -- 0xFF

theorem fok_execCB (cb : Nat) (m : Machine) (h : m.cpu.f &&& 0x0F = 0) :
    fokr (execCB cb m) := by
  unfold execCB
  dsimp only
  split_ifs <;>
    simp only [fokr_ok, fokr_error, fz_cb_hl, fz_cb_r8, fz_bit_hl, fz_bit_r8,
      f_res_hl, f_res_r8, f_set_hl, h]

set_option maxRecDepth 8000 in
theorem fok_execOpcode (op : Nat) (m : Machine) (h : m.cpu.f &&& 0x0F = 0) :
    fokr (execOpcode op m) := by
  unfold execOpcode
  dsimp only
  split_ifs <;>
    first
    | exact fok_execCB _ _ (by simpa using h)
    | exact fok_exec0x _ _ (by omega) h
    | exact fok_execHi _ _ h
    | simp only [fokr_ok, f_halt, f_ld_hl_r8, f_ld_r8_hl, f_ld_r8_r8,
        fz_alu_hl, fz_alu_r8, h]

/-- `_handle_interrupts` never touches F. -/
theorem f_handleInterrupts (m : Machine) :
    (handleInterrupts m).1.cpu.f = m.cpu.f := by
  unfold handleInterrupts serviceInt
  dsimp only
  split_ifs <;> rfl

end FlagLemmas

/-- C9: F's low nibble is zero after every write to F (`set_flag` masks with
0xF0, as does the AF path used by `POP AF`), and the invariant
`F & 0x0F = 0` is preserved by every successful `CPU.step`, whatever
instruction it executes. -/
theorem C9_flag_low_nibble :
    (∀ (f flag : Nat) (p : Prop) (inst : Decidable p),
      @setFlag f flag p inst &&& 0x0F = 0) ∧
    (∀ m : Machine, (Insn.pop_af m).cpu.f &&& 0x0F = 0) ∧
    (∀ (m m2 : Machine) (n : Nat), m.cpu.f &&& 0x0F = 0 →
      CPU.step m = .ok (m2, n) → m2.cpu.f &&& 0x0F = 0) := by
  refine ⟨fun f flag p inst => setFlag_low f flag p, fun m => fz_pop_af m, ?_⟩
  intro m m2 n h hstep
  have hok : ∀ {op : Nat} {mm m3 : Machine}, mm.cpu.f &&& 0x0F = 0 →
      execOpcode op mm = .ok m3 → m3.cpu.f &&& 0x0F = 0 := by
    intro op mm m3 hf heq
    have := fok_execOpcode op mm hf
    rw [heq] at this
    exact this
  simp only [CPU.step, stepHalt, stepRest] at hstep
  split_ifs at hstep <;>
    first
    | (injection hstep with h1
       have hm2 := congrArg Prod.fst h1
       subst hm2
       rw [f_handleInterrupts]
       simpa using h)
    | (injection hstep with h1
       have hm2 := congrArg Prod.fst h1
       subst hm2
       simpa using h)
    | (split at hstep
       · exact Except.noConfusion hstep
       · rename_i m3 heq
         injection hstep with h1
         have hm2 := congrArg Prod.fst h1
         subst hm2
         have h3 := hok (by
           rw [fetchByte_f]
           try rw [f_handleInterrupts]
           simpa using h) heq
         simpa using h3)

/-- Witness for C9: the setFlag clause at concrete values and the step
clause at a machine about to execute `NOP` from the reset state
(F = 0xB0). -/
theorem C9_flag_low_nibble_witness :
    setFlag 0xB0 0x80 True &&& 0x0F = 0 ∧
    (machNop.cpu.f &&& 0x0F = 0) ∧
    (okMachine (CPU.step machNop)).cpu.f &&& 0x0F = 0 :=
  ⟨C9_flag_low_nibble.1 0xB0 0x80 True _, by decide,
   C9_flag_low_nibble.2.2 machNop (okMachine (CPU.step machNop))
     (okCycles (CPU.step machNop)) (by decide) (by rfl)⟩

end GBC
